import Mathlib

/-!
Verification development for the devicemapper thin-pool `DeviceSet`
(docker graph driver backend, file `devmapper/deviceset.go`).

The Go code is shallowly embedded as pure Lean functions over an explicit
state record.  External collaborators (the kernel devicemapper library,
the filesystem syscalls, JSON codecs, option parsers) are modelled by an
oracle `Env` of step-indexed outcomes; every external call consumes one
step of the oracle, and kernel-facing calls additionally append a ghost
`Event` to a trace so that frame/effect properties ("no kernel mount",
"deactivated exactly once") can be stated.  Machine integers are `Nat`
with explicit `% 2 ^ w` where the Go code can overflow (the `uint64`
transaction counter, the 24-bit device-id mask).
-/

namespace Devmapper

/-- `MaxDeviceId = 0xffffff`: 24 bit, pool limit. -/
def maxDeviceId : Nat := 0xffffff

/-- `syscall.MNT_DETACH`. -/
def mntDetach : Nat := 2

/-- `syscall.MS_MGC_VAL`. -/
def msMgcVal : Nat := 0xC0ED0000

/-- 2^64, the modulus of Go's `uint64` arithmetic. -/
def u64Mod (n : Nat) : Nat := n % 18446744073709551616

/-- The pending-transaction record (`Transaction` in the source):
`open_transaction_id`, `device_hash`, `device_id`. -/
structure Transaction where
  OpenTransactionId : Nat
  DeviceIdHash : String
  DeviceId : Nat
deriving DecidableEq

/-- Per-device record (`DevInfo` in the source).  `mountCount` and
`mountPath` are the runtime-only mount bookkeeping fields; the
`devices` back-pointer of the source is replaced by passing the
`DeviceSet` to the naming functions. -/
structure DevInfo where
  Hash : String
  DeviceId : Nat
  Size : Nat
  TransactionId : Nat
  Initialized : Bool
  mountCount : Nat
  mountPath : String
deriving DecidableEq

/-- Ghost trace of calls into the kernel collaborators
(`pkg/devicemapper` and mount/unmount syscalls). -/
inductive Event where
  | createDevice (pool : String) (deviceId : Nat)
  | createSnapDevice (pool : String) (deviceId : Nat) (baseName : String) (baseDeviceId : Nat)
  | deleteDevice (pool : String) (deviceId : Nat)
  | setTransactionId (pool : String) (oldId newId : Nat)
  | activateDevice (pool name : String) (deviceId size : Nat)
  | blockDiscard (devname : String)
  | removeDevice (name : String)
  | mount (source target fstype data : String) (flags : Nat)
  | unmount (target : String) (flags : Nat)
  | deactivate (name : String)
deriving DecidableEq

/-- Error values surfaced by the embedded operations.  Go wraps most
errors in `fmt.Errorf` strings; here each distinct failure source is a
constructor (`shortWrite` is `io.ErrShortWrite`).  `fuelOut` is a
modelling artifact of the bounded retry loops. -/
inductive DmError where
  | tmpCreate | writeFail | shortWrite | syncFail | closeFail | renameFail
  | noFreeId | fuelOut
  | unknownDevice (hash : String)
  | notMounted (hash : String)
  | mountedElsewhere (current target : String)
  | activateFail | probeFail | mountFail | unmountFail
  | getInfoFail | removeDevFail
  | createFail | deleteFail | setTransFail | removeMetaFail
  | poolStatusFail | usedDataBlocks | nonzeroTransId
  | mkfsFail
deriving DecidableEq

/-- The `DeviceSet` state.  Beyond the Go struct's fields
(`Devices`, `TransactionId`, `NextDeviceId`, `deviceIdMap`, the embedded
`Transaction` fields `OpenTransactionId`/`DeviceIdHash`/`DeviceId`, and
the configuration fields used by the modelled operations), it carries
the modelled world: `fs` is the metadata directory (path to byte
contents), `trace` the ghost kernel-call trace, `step` the oracle
cursor.  `deviceIdMap` maps a bit position to its value; the source's
byte array `deviceIdMap[i]` bit `j` is position `8*i + j` (see
`bitIndex`). -/
structure DeviceSet where
  Devices : String → Option DevInfo
  TransactionId : Nat
  OpenTransactionId : Nat
  DeviceIdHash : String
  DeviceId : Nat
  NextDeviceId : Nat
  deviceIdMap : Nat → Bool
  fs : String → Option (List Nat)
  trace : List Event
  step : Nat
  root : String
  devicePrefixName : String
  thinPoolDevice : String
  doBlkDiscard : Bool
  baseFsSize : Nat
  mountOptions : String

/-- Outcome of `devicemapper.CreateDevice` / `CreateSnapDevice`:
success, the `DeviceIdExists` error, or any other error. -/
inductive CreateRes where
  | ok | idExists | err
deriving DecidableEq

/-- Outcome of the `syscall.Mount` attempt: success, `EINVAL`
(triggering the retry without `discard`), or any other error. -/
inductive MountRes where
  | ok | einval | err
deriving DecidableEq

/-- Oracle for one `writeMetaFile` call: whether `ioutil.TempFile`
succeeds and the temp name it picks, how many bytes `Write` reports
(`none` = write error), and whether `Sync`/`Close`/`Rename` succeed. -/
structure WEnv where
  tmpOk : Bool
  tmpName : String
  written : Option Nat
  syncOk : Bool
  closeOk : Bool
  renameOk : Bool

/-- `poolStatus()` output fields (parsed from the pool's
`GetStatus` params string). -/
structure PoolStatus where
  totalSizeInSectors : Nat
  transactionId : Nat
  dataUsed : Nat
  dataTotal : Nat
  metadataUsed : Nat
  metadataTotal : Nat

/-- Environment oracle: outcomes of all external calls, indexed by the
state's `step` counter, plus the (pure) JSON codecs and external string
helpers. -/
structure Env where
  wenv : Nat → WEnv
  createRes : Nat → CreateRes
  boolRes : Nat → Bool
  getInfoRes : Nat → Option Bool
  probeFs : Nat → Option String
  mountRes : Nat → MountRes
  poolStatus : Nat → Option PoolStatus
  ramInBytes : String → Option Int
  encodeTrans : Transaction → List Nat
  encodeDev : DevInfo → List Nat
  decodeTrans : List Nat → Option Transaction
  decodeDev : List Nat → Option DevInfo
  formatLabel : String → String → String

/-- Append a ghost event to the kernel-call trace. -/
def emit (s : DeviceSet) (e : Event) : DeviceSet :=
  { s with trace := s.trace ++ [e] }

/-- Advance the oracle cursor (one external call consumed). -/
def tick (s : DeviceSet) : DeviceSet :=
  { s with step := s.step + 1 }

/-- Update the `Devices` map at `hash` (the source mutates the shared
`*DevInfo`; the map here holds values). -/
def setDevice (s : DeviceSet) (hash : String) (info : DevInfo) : DeviceSet :=
  { s with Devices := fun h => if h = hash then some info else s.Devices h }

/-- Point update of the modelled filesystem. -/
def fsSet (f : String → Option (List Nat)) (p : String) (v : Option (List Nat)) :
    String → Option (List Nat) :=
  fun q => if q = p then v else f q

/-- `metadataDir`: `path.Join(devices.root, "metadata")`. -/
def metadataDir (s : DeviceSet) : String := s.root ++ "/metadata"

/-- `metadataFile`, keyed by the hash (the source takes the `DevInfo`
and reads its hash): file `base` for the empty hash. -/
def metadataFile (s : DeviceSet) (hash : String) : String :=
  metadataDir s ++ "/" ++ (if hash = "" then "base" else hash)

/-- `transactionMetaFile`: `<metadataDir>/transaction-metadata`. -/
def transactionMetaFile (s : DeviceSet) : String :=
  metadataDir s ++ "/transaction-metadata"

/-- `deviceSetMetaFile`: `<metadataDir>/deviceset-metadata`. -/
def deviceSetMetaFile (s : DeviceSet) : String :=
  metadataDir s ++ "/deviceset-metadata"

/-- `getPoolName`: `<prefix>-pool`, or the external thin-pool name. -/
def getPoolName (s : DeviceSet) : String :=
  if s.thinPoolDevice = "" then s.devicePrefixName ++ "-pool" else s.thinPoolDevice

/-- `getDevName` composed with `getPoolName`. -/
def getPoolDevName (s : DeviceSet) : String :=
  "/dev/mapper/" ++ getPoolName s

/-- `(*DevInfo).Name()`: `<prefix>-<hash>` with `base` for the empty
hash. -/
def infoName (s : DeviceSet) (info : DevInfo) : String :=
  s.devicePrefixName ++ "-" ++ (if info.Hash = "" then "base" else info.Hash)

/-- `(*DevInfo).DevName()`. -/
def devNameOf (s : DeviceSet) (info : DevInfo) : String :=
  "/dev/mapper/" ++ infoName s info

/-- Overall bit position of device id `deviceId` in the byte array
`deviceIdMap`: byte `deviceId / 8`, bit `deviceId % 8` (the source
computes `mask = 1 << (deviceId % 8)` and indexes byte
`deviceId / 8`). -/
def bitIndex (deviceId : Nat) : Nat := deviceId / 8 * 8 + deviceId % 8

/-- `markDeviceIdUsed`: or the mask into the byte, i.e. set the bit. -/
def markDeviceIdUsed (s : DeviceSet) (deviceId : Nat) : DeviceSet :=
  { s with deviceIdMap := fun b => if b = bitIndex deviceId then true else s.deviceIdMap b }

/-- `markDeviceIdFree`: and the complemented mask, i.e. clear the bit. -/
def markDeviceIdFree (s : DeviceSet) (deviceId : Nat) : DeviceSet :=
  { s with deviceIdMap := fun b => if b = bitIndex deviceId then false else s.deviceIdMap b }

/-- `isDeviceIdFree`: the masked byte is zero iff the bit is clear. -/
def isDeviceIdFree (s : DeviceSet) (deviceId : Nat) : Bool :=
  !(s.deviceIdMap (bitIndex deviceId))

/-- `incNextDeviceId`: ids are 24 bit, `(NextDeviceId + 1) & MaxDeviceId`
wraps around. -/
def incNextDeviceId (s : DeviceSet) : DeviceSet :=
  { s with NextDeviceId := (s.NextDeviceId + 1) % (maxDeviceId + 1) }

/-- The scan loop of `getNextFreeDeviceId`
(`for i := 0; i <= MaxDeviceId; i++`), as fuel recursion: check the
cursor position, on success mark it used and return it, otherwise
advance the cursor and continue. -/
def findFreeLoop (s : DeviceSet) : Nat → Option Nat × DeviceSet
  | 0 => (none, s)
  | fuel + 1 =>
    if isDeviceIdFree s s.NextDeviceId then
      (some s.NextDeviceId, markDeviceIdUsed s s.NextDeviceId)
    else
      findFreeLoop (incNextDeviceId s) fuel

/-- `getNextFreeDeviceId`: advance the cursor once, then scan up to
`MaxDeviceId + 1` positions; `none` models the
`Unable to find a free device Id` error (the Go function then returns
id 0 alongside the error). -/
def getNextFreeDeviceId (s : DeviceSet) : Option Nat × DeviceSet :=
  findFreeLoop (incNextDeviceId s) (maxDeviceId + 1)

/-- `devicemapper.CreateDevice`. -/
def dmCreateDevice (env : Env) (pool : String) (deviceId : Nat) (s : DeviceSet) :
    CreateRes × DeviceSet :=
  (env.createRes s.step, tick (emit s (.createDevice pool deviceId)))

/-- `devicemapper.CreateSnapDevice`. -/
def dmCreateSnapDevice (env : Env) (pool : String) (deviceId : Nat)
    (baseName : String) (baseDeviceId : Nat) (s : DeviceSet) : CreateRes × DeviceSet :=
  (env.createRes s.step, tick (emit s (.createSnapDevice pool deviceId baseName baseDeviceId)))

/-- `devicemapper.DeleteDevice` (the pool-level kernel call). -/
def dmDeleteDevice (env : Env) (pool : String) (deviceId : Nat) (s : DeviceSet) :
    Bool × DeviceSet :=
  (env.boolRes s.step, tick (emit s (.deleteDevice pool deviceId)))

/-- `devicemapper.SetTransactionId`. -/
def dmSetTransactionId (env : Env) (pool : String) (oldId newId : Nat) (s : DeviceSet) :
    Bool × DeviceSet :=
  (env.boolRes s.step, tick (emit s (.setTransactionId pool oldId newId)))

/-- `devicemapper.ActivateDevice`. -/
def dmActivateDevice (env : Env) (pool name : String) (deviceId size : Nat) (s : DeviceSet) :
    Bool × DeviceSet :=
  (env.boolRes s.step, tick (emit s (.activateDevice pool name deviceId size)))

/-- `devicemapper.BlockDeviceDiscard`. -/
def blockDeviceDiscard (env : Env) (devname : String) (s : DeviceSet) : Bool × DeviceSet :=
  (env.boolRes s.step, tick (emit s (.blockDiscard devname)))

/-- `os.RemoveAll`: on success the path is gone (success also when the
path did not exist). -/
def osRemoveAll (env : Env) (p : String) (s : DeviceSet) : Bool × DeviceSet :=
  if env.boolRes s.step then (true, tick { s with fs := fsSet s.fs p none })
  else (false, tick s)

/-- `syscall.Mount`. -/
def sysMount (env : Env) (source target fstype : String) (flags : Nat) (data : String)
    (s : DeviceSet) : MountRes × DeviceSet :=
  (env.mountRes s.step, tick (emit s (.mount source target fstype data flags)))

/-- `syscall.Unmount`. -/
def sysUnmount (env : Env) (target : String) (flags : Nat) (s : DeviceSet) :
    Bool × DeviceSet :=
  (env.boolRes s.step, tick (emit s (.unmount target flags)))

/-- `removeDeviceAndWait`: the retry-on-busy `RemoveDevice` loop and the
`waitRemove` poll, abstracted into one kernel interaction with an
overall success/failure outcome. -/
def removeDeviceAndWaitCall (env : Env) (name : String) (s : DeviceSet) :
    Bool × DeviceSet :=
  (env.boolRes s.step, tick (emit s (.removeDevice name)))

/-- `writeMetaFile`: create a temp file in the metadata directory, write
the whole byte slice (a short write is `io.ErrShortWrite`), sync, close,
then rename over the target path. -/
def writeMetaFile (env : Env) (jsonData : List Nat) (filePath : String) (s : DeviceSet) :
    Except DmError Unit × DeviceSet :=
  let w := env.wenv s.step
  let s0 := tick s
  if !w.tmpOk then (.error .tmpCreate, s0)
  else
    let tmpPath := metadataDir s ++ "/.tmp" ++ w.tmpName
    let s1 := { s0 with fs := fsSet s0.fs tmpPath (some []) }
    match w.written with
    | none => (.error .writeFail, s1)
    | some n =>
      let s2 := { s1 with fs := fsSet s1.fs tmpPath (some (jsonData.take n)) }
      if n < jsonData.length then (.error .shortWrite, s2)
      else if !w.syncOk then (.error .syncFail, s2)
      else if !w.closeOk then (.error .closeFail, s2)
      else if !w.renameOk then (.error .renameFail, s2)
      else
        (.ok (), { s2 with fs := (fun p =>
          if p = tmpPath then none
          else if p = filePath then s2.fs tmpPath
          else s2.fs p) })

/-- The temp path `writeMetaFile` would use at state `s`
(`ioutil.TempFile(devices.metadataDir(), ".tmp")`). -/
def wmfTmpPath (env : Env) (s : DeviceSet) : String :=
  metadataDir s ++ "/.tmp" ++ (env.wenv s.step).tmpName

/-- `saveMetadata`: marshal the record, atomically write its metadata
file. -/
def saveMetadata (env : Env) (info : DevInfo) (s : DeviceSet) :
    Except DmError Unit × DeviceSet :=
  writeMetaFile env (env.encodeDev info) (metadataFile s info.Hash) s

/-- `removeMetadata`: `os.RemoveAll` of the record's metadata file. -/
def removeMetadata (env : Env) (hash : String) (s : DeviceSet) :
    Except DmError Unit × DeviceSet :=
  let r := osRemoveAll env (metadataFile s hash) s
  if r.1 then (.ok (), r.2) else (.error .removeMetaFail, r.2)

/-- `allocateTransactionId`: `OpenTransactionId = TransactionId + 1`
(`uint64` arithmetic). -/
def allocateTransactionId (s : DeviceSet) : DeviceSet :=
  { s with OpenTransactionId := u64Mod (s.TransactionId + 1) }

/-- `updatePoolTransactionId`: `SetTransactionId(pool, current, open)`;
on success `TransactionId = OpenTransactionId`. -/
def updatePoolTransactionId (env : Env) (s : DeviceSet) :
    Except DmError Unit × DeviceSet :=
  let r := dmSetTransactionId env (getPoolDevName s) s.TransactionId s.OpenTransactionId s
  if r.1 then (.ok (), { r.2 with TransactionId := r.2.OpenTransactionId })
  else (.error .setTransFail, r.2)

/-- `saveTransactionMetaData`: marshal the pending `Transaction`,
atomically write `transaction-metadata`. -/
def saveTransactionMetaData (env : Env) (s : DeviceSet) :
    Except DmError Unit × DeviceSet :=
  writeMetaFile env
    (env.encodeTrans ⟨s.OpenTransactionId, s.DeviceIdHash, s.DeviceId⟩)
    (transactionMetaFile s) s

/-- `removeTransactionMetaData`: `os.RemoveAll` of
`transaction-metadata`. -/
def removeTransactionMetaData (env : Env) (s : DeviceSet) : Bool × DeviceSet :=
  osRemoveAll env (transactionMetaFile s) s

/-- `openTransaction`: allocate the open id, record hash and device id,
persist the pending-transaction file. -/
def openTransaction (env : Env) (hash : String) (deviceId : Nat) (s : DeviceSet) :
    Except DmError Unit × DeviceSet :=
  let s1 := { allocateTransactionId s with DeviceIdHash := hash, DeviceId := deviceId }
  saveTransactionMetaData env s1

/-- `refreshTransaction`: replace the pending device id, persist the
pending-transaction file. -/
def refreshTransaction (env : Env) (deviceId : Nat) (s : DeviceSet) :
    Except DmError Unit × DeviceSet :=
  saveTransactionMetaData env { s with DeviceId := deviceId }

/-- `closeTransaction` is `updatePoolTransactionId` (commit only
advances the pool transaction id; nothing else). -/
def closeTransaction (env : Env) (s : DeviceSet) : Except DmError Unit × DeviceSet :=
  updatePoolTransactionId env s

/-- `registerDevice`: build the record (`Initialized = false`), insert
into the registry, persist; on persist failure evict and fail. -/
def registerDevice (env : Env) (deviceId : Nat) (hash : String) (size txid : Nat)
    (s : DeviceSet) : Except DmError DevInfo × DeviceSet :=
  let info : DevInfo := ⟨hash, deviceId, size, txid, false, 0, ""⟩
  let s1 := { s with Devices := fun h => if h = hash then some info else s.Devices h }
  let r := saveMetadata env info s1
  match r.1 with
  | .ok _ => (.ok info, r.2)
  | .error e =>
    (.error e, { r.2 with Devices := fun h => if h = hash then none else (r.2).Devices h })

/-- `unregisterDevice`: evict from the registry, remove the metadata
file (failure propagates). -/
def unregisterDevice (env : Env) (hash : String) (s : DeviceSet) :
    Except DmError Unit × DeviceSet :=
  let s1 := { s with Devices := fun h => if h = hash then none else s.Devices h }
  removeMetadata env hash s1

/-- `loadMetadata` folded into `lookupDevice`: return the cached record,
else decode the per-device metadata file (its hash comes from the file
name, the runtime-only fields start zeroed); no record and no readable
file is `Unknown device`. -/
def lookupDevice (env : Env) (hash : String) (s : DeviceSet) :
    Except DmError DevInfo × DeviceSet :=
  match s.Devices hash with
  | some info => (.ok info, s)
  | none =>
    match s.fs (metadataFile s hash) with
    | none => (.error (.unknownDevice hash), s)
    | some bs =>
      match env.decodeDev bs with
      | none => (.error (.unknownDevice hash), s)
      | some r =>
        let info : DevInfo := { r with Hash := hash, mountCount := 0, mountPath := "" }
        (.ok info, setDevice s hash info)

/-- `activateDeviceIfNeeded`: if `GetInfo` reports the device as
existing, done; otherwise `ActivateDevice` (a `GetInfo` error also
falls through to activation, as in the source). -/
def activateDeviceIfNeeded (env : Env) (info : DevInfo) (s : DeviceSet) :
    Except DmError Unit × DeviceSet :=
  match env.getInfoRes s.step with
  | some true => (.ok (), tick s)
  | _ =>
    let s1 := tick s
    let a := dmActivateDevice env (getPoolDevName s1) (infoName s1 info) info.DeviceId info.Size s1
    if a.1 then (.ok (), a.2) else (.error .activateFail, a.2)

/-- `createFilesystem`: the mkfs/tune2fs invocations on the activated
device, abstracted into one external call. -/
def createFilesystem (env : Env) (s : DeviceSet) : Except DmError Unit × DeviceSet :=
  if env.boolRes s.step then (.ok (), tick s) else (.error .mkfsFail, tick s)

/-- `deactivateDevice`: the `waitClose` poll (errors only logged),
`GetInfo`, and on an existing device `removeDeviceAndWait`.  The
`.deactivate` ghost event marks the invocation. -/
def deactivateDevice (env : Env) (info : DevInfo) (s : DeviceSet) :
    Except DmError Unit × DeviceSet :=
  let s0 := emit s (.deactivate (infoName s info))
  match env.getInfoRes s0.step with
  | none => (.error .getInfoFail, tick s0)
  | some false => (.ok (), tick s0)
  | some true =>
    let r := removeDeviceAndWaitCall env (infoName s0 info) (tick s0)
    if r.1 then (.ok (), r.2) else (.error .removeDevFail, r.2)

/-- Modelled from the spec: `joinMountOptions` (helper of this
repository not included under `src/`): mount options strings are
joined with commas, an empty side yielding the other. -/
def joinMountOptions (a b : String) : String :=
  if a = "" then b else if b = "" then a else a ++ "," ++ b

/-- The `DeviceIdExists` retry loop of `createRegisterDevice`
(fuel recursion; the Go loop terminates because every retry consumes a
free id).  Returns the last value of the loop's `deviceId` variable
alongside the result — on the non-`DeviceIdExists` error path the loop
has just freed exactly that id; on exhaustion of the id space the Go
allocator returned id 0 with its error.  `.fuelOut` is unreachable for
sufficient fuel. -/
def createDeviceLoop (env : Env) : Nat → Nat → DeviceSet →
    Except DmError Unit × Nat × DeviceSet
  | 0, deviceId, s => (.error .fuelOut, deviceId, s)
  | fuel + 1, deviceId, s =>
    let c := dmCreateDevice env (getPoolDevName s) deviceId s
    match c.1 with
    | .ok => (.ok (), deviceId, c.2)
    | .idExists =>
      let g := getNextFreeDeviceId c.2
      match g.1 with
      | some newId => createDeviceLoop env fuel newId (refreshTransaction env newId g.2).2
      | none => (.error .noFreeId, 0, g.2)
    | .err => (.error .createFail, deviceId, markDeviceIdFree c.2 deviceId)

/-- The `DeviceIdExists` retry loop of `createRegisterSnapDevice`
(same shape over `CreateSnapDevice`). -/
def createSnapDeviceLoop (env : Env) (baseName : String) (baseDeviceId : Nat) :
    Nat → Nat → DeviceSet → Except DmError Unit × Nat × DeviceSet
  | 0, deviceId, s => (.error .fuelOut, deviceId, s)
  | fuel + 1, deviceId, s =>
    let c := dmCreateSnapDevice env (getPoolDevName s) deviceId baseName baseDeviceId s
    match c.1 with
    | .ok => (.ok (), deviceId, c.2)
    | .idExists =>
      let g := getNextFreeDeviceId c.2
      match g.1 with
      | some newId =>
        createSnapDeviceLoop env baseName baseDeviceId fuel newId (refreshTransaction env newId g.2).2
      | none => (.error .noFreeId, 0, g.2)
    | .err => (.error .createFail, deviceId, markDeviceIdFree c.2 deviceId)

/-- `createRegisterDevice`: allocate an id, open the transaction, run
the create loop, register the record with size `baseFsSize` and the
open transaction id, commit.  Every error path cleans up exactly as the
source (the second component is the loop's final `deviceId`
variable). -/
def createRegisterDevice (env : Env) (fuel : Nat) (hash : String) (s : DeviceSet) :
    Except DmError DevInfo × Nat × DeviceSet :=
  let g := getNextFreeDeviceId s
  match g.1 with
  | none => (.error .noFreeId, 0, g.2)
  | some deviceId =>
    let o := openTransaction env hash deviceId g.2
    match o.1 with
    | .error e => (.error e, deviceId, markDeviceIdFree o.2 deviceId)
    | .ok _ =>
      let l := createDeviceLoop env fuel deviceId o.2
      match l.1 with
      | .error e => (.error e, l.2.1, l.2.2)
      | .ok _ =>
        let r := registerDevice env l.2.1 hash l.2.2.baseFsSize l.2.2.OpenTransactionId l.2.2
        match r.1 with
        | .error e =>
          (.error e, l.2.1,
            markDeviceIdFree (dmDeleteDevice env (getPoolDevName r.2) l.2.1 r.2).2 l.2.1)
        | .ok info =>
          let c := closeTransaction env r.2
          match c.1 with
          | .error e =>
            let s6 := (unregisterDevice env hash c.2).2
            (.error e, l.2.1,
              markDeviceIdFree (dmDeleteDevice env (getPoolDevName s6) l.2.1 s6).2 l.2.1)
          | .ok _ => (.ok info, l.2.1, c.2)

/-- `createRegisterSnapDevice`: as `createRegisterDevice` but with the
snapshot create loop and the base record's size. -/
def createRegisterSnapDevice (env : Env) (fuel : Nat) (hash : String) (baseInfo : DevInfo)
    (s : DeviceSet) : Except DmError Unit × Nat × DeviceSet :=
  let g := getNextFreeDeviceId s
  match g.1 with
  | none => (.error .noFreeId, 0, g.2)
  | some deviceId =>
    let o := openTransaction env hash deviceId g.2
    match o.1 with
    | .error e => (.error e, deviceId, markDeviceIdFree o.2 deviceId)
    | .ok _ =>
      let l := createSnapDeviceLoop env (infoName o.2 baseInfo) baseInfo.DeviceId fuel deviceId o.2
      match l.1 with
      | .error e => (.error e, l.2.1, l.2.2)
      | .ok _ =>
        let r := registerDevice env l.2.1 hash baseInfo.Size l.2.2.OpenTransactionId l.2.2
        match r.1 with
        | .error e =>
          (.error e, l.2.1,
            markDeviceIdFree (dmDeleteDevice env (getPoolDevName r.2) l.2.1 r.2).2 l.2.1)
        | .ok _ =>
          let c := closeTransaction env r.2
          match c.1 with
          | .error e =>
            let s6 := (unregisterDevice env hash c.2).2
            (.error e, l.2.1,
              markDeviceIdFree (dmDeleteDevice env (getPoolDevName s6) l.2.1 s6).2 l.2.1)
          | .ok _ => (.ok (), l.2.1, c.2)

/-- The transaction-wrapped tail of `deleteDevice` (open, pool-level
delete, unregister, commit, free the id), split out of `deleteDevice`
for readability only. -/
def deleteDeviceCore (env : Env) (info : DevInfo) (s : DeviceSet) :
    Except DmError Unit × DeviceSet :=
  let o := openTransaction env info.Hash info.DeviceId s
  match o.1 with
  | .error e => (.error e, o.2)
  | .ok _ =>
    let del := dmDeleteDevice env (getPoolDevName o.2) info.DeviceId o.2
    if !del.1 then (.error .deleteFail, del.2)
    else
      let u := unregisterDevice env info.Hash del.2
      match u.1 with
      | .error e => (.error e, u.2)
      | .ok _ =>
        let c := closeTransaction env u.2
        match c.1 with
        | .error e => (.error e, c.2)
        | .ok _ => (.ok (), markDeviceIdFree c.2 info.DeviceId)

/-- `deleteDevice` (lower case): optional blkdiscard hack (activate,
discard, both best-effort), deactivate an existing kernel device
(`GetInfo` error ignored), then the transaction-wrapped deletion. -/
def deleteDevice (env : Env) (info : DevInfo) (s : DeviceSet) :
    Except DmError Unit × DeviceSet :=
  let sA :=
    if s.doBlkDiscard then
      let a := activateDeviceIfNeeded env info s
      match a.1 with
      | .ok _ => (blockDeviceDiscard env (devNameOf a.2 info) a.2).2
      | .error _ => a.2
    else s
  match env.getInfoRes sA.step with
  | some true =>
    let r := removeDeviceAndWaitCall env (infoName sA info) (tick sA)
    if !r.1 then (.error .removeDevFail, r.2)
    else deleteDeviceCore env info r.2
  | _ => deleteDeviceCore env info (tick sA)

/-- `DeleteDevice` (exported): look up the record, then delete it. -/
def DeleteDevice (env : Env) (hash : String) (s : DeviceSet) :
    Except DmError Unit × DeviceSet :=
  let l := lookupDevice env hash s
  match l.1 with
  | .error e => (.error e, l.2)
  | .ok info => deleteDevice env info l.2

/-- `MountDevice`: refcounted mount.  Warm path: same path increments
the count, a different path is the mounted-elsewhere error.  Cold path:
activate if needed, probe the filesystem type, compose options
(`nouuid` for xfs, configured options, the mount label), mount with
`discard` retrying without it on `EINVAL`, then set
`mountCount = 1` and `mountPath`. -/
def MountDevice (env : Env) (hash p mountLabel : String) (s : DeviceSet) :
    Except DmError Unit × DeviceSet :=
  let lk := lookupDevice env hash s
  match lk.1 with
  | .error e => (.error e, lk.2)
  | .ok info =>
    if 0 < info.mountCount then
      if p ≠ info.mountPath then (.error (.mountedElsewhere info.mountPath p), lk.2)
      else (.ok (), setDevice lk.2 hash { info with mountCount := info.mountCount + 1 })
    else
      let a := activateDeviceIfNeeded env info lk.2
      match a.1 with
      | .error _ => (.error .activateFail, a.2)
      | .ok _ =>
        match env.probeFs a.2.step with
        | none => (.error .probeFail, tick a.2)
        | some fstype =>
          let s2 := tick a.2
          let options0 := if fstype = "xfs" then joinMountOptions "" "nouuid" else ""
          let options1 := joinMountOptions options0 s2.mountOptions
          let options2 := joinMountOptions options1 (env.formatLabel "" mountLabel)
          let m1 := sysMount env (devNameOf s2 info) p fstype msMgcVal
            (joinMountOptions "discard" options2) s2
          match m1.1 with
          | .ok => (.ok (), setDevice m1.2 hash { info with mountCount := 1, mountPath := p })
          | .einval =>
            let m2 := sysMount env (devNameOf m1.2 info) p fstype msMgcVal options2 m1.2
            match m2.1 with
            | .ok => (.ok (), setDevice m2.2 hash { info with mountCount := 1, mountPath := p })
            | _ => (.error .mountFail, m2.2)
          | .err => (.error .mountFail, m1.2)

/-- `UnmountDevice`: zero count is the not-mounted error; the count is
decremented first; while it stays positive nothing else happens; at
zero unmount with `MNT_DETACH`, deactivate, clear `mountPath`. -/
def UnmountDevice (env : Env) (hash : String) (s : DeviceSet) :
    Except DmError Unit × DeviceSet :=
  let lk := lookupDevice env hash s
  match lk.1 with
  | .error e => (.error e, lk.2)
  | .ok info =>
    if info.mountCount = 0 then (.error (.notMounted hash), lk.2)
    else
      let info1 : DevInfo := { info with mountCount := info.mountCount - 1 }
      let s1 := setDevice lk.2 hash info1
      if 0 < info1.mountCount then (.ok (), s1)
      else
        let um := sysUnmount env info1.mountPath mntDetach s1
        if !um.1 then (.error .unmountFail, um.2)
        else
          let de := deactivateDevice env info1 um.2
          match de.1 with
          | .error e => (.error e, de.2)
          | .ok _ => (.ok (), setDevice de.2 hash { info1 with mountPath := "" })

/-- `loadTransactionMetaData`: a missing pending-transaction file sets
`OpenTransactionId = TransactionId`; otherwise the decoded record
replaces the in-memory `Transaction` (the source drops
`json.Unmarshal`'s error, so an undecodable file changes nothing). -/
def loadTransactionMetaData (env : Env) (s : DeviceSet) : DeviceSet :=
  match s.fs (transactionMetaFile s) with
  | none => { s with OpenTransactionId := s.TransactionId }
  | some bs =>
    match env.decodeTrans bs with
    | some t =>
      { s with OpenTransactionId := t.OpenTransactionId,
               DeviceIdHash := t.DeviceIdHash, DeviceId := t.DeviceId }
    | none => s

/-- `rollbackTransaction`: best-effort pool-level `DeleteDevice`
(failure only logged), remove the pending device's metadata file and —
only if that removal succeeded — free its id, then best-effort removal
of the pending-transaction file; always returns success. -/
def rollbackTransaction (env : Env) (s : DeviceSet) : DeviceSet :=
  let s1 := (dmDeleteDevice env (getPoolDevName s) s.DeviceId s).2
  let r := osRemoveAll env (metadataFile s1 s1.DeviceIdHash) s1
  let s3 := if r.1 then markDeviceIdFree r.2 r.2.DeviceId else r.2
  (removeTransactionMetaData env s3).2

/-- `processPendingTransaction`: load the pending transaction; equal
ids mean nothing to roll back, a smaller open id is logged as an
anomaly and also ignored; only a strictly greater open id triggers the
rollback, after which `OpenTransactionId` is realigned. -/
def processPendingTransaction (env : Env) (s : DeviceSet) : DeviceSet :=
  let s0 := loadTransactionMetaData env s
  if s0.TransactionId = s0.OpenTransactionId then s0
  else if s0.OpenTransactionId < s0.TransactionId then s0
  else
    let s1 := rollbackTransaction env s0
    { s1 with OpenTransactionId := s1.TransactionId }

/-- The creation tail of `setupBaseImage` (create and register the base
device, activate, format, persist `Initialized = true`, resetting it on
a failed persist). -/
def setupBaseImageCreate (env : Env) (fuel : Nat) (s : DeviceSet) :
    Except DmError Unit × DeviceSet :=
  let cr := createRegisterDevice env fuel "" s
  match cr.1 with
  | .error e => (.error e, cr.2.2)
  | .ok info =>
    let a := activateDeviceIfNeeded env info cr.2.2
    match a.1 with
    | .error e => (.error e, a.2)
    | .ok _ =>
      let cf := createFilesystem env a.2
      match cf.1 with
      | .error e => (.error e, cf.2)
      | .ok _ =>
        let info1 : DevInfo := { info with Initialized := true }
        let sv := saveMetadata env info1 (setDevice cf.2 "" info1)
        match sv.1 with
        | .error e => (.error e, setDevice sv.2 "" info)
        | .ok _ => (.ok (), sv.2)

/-- `setupBaseImage`: an initialized base record is a no-op; an
uninitialized one is deleted first; with an external thin-pool and no
base record the pool must report zero used data blocks and a zero
transaction id (checked in that order) before the base device is
created. -/
def setupBaseImage (env : Env) (fuel : Nat) (s : DeviceSet) :
    Except DmError Unit × DeviceSet :=
  let lk := lookupDevice env "" s
  match lk.1 with
  | .ok oldInfo =>
    if oldInfo.Initialized then (.ok (), lk.2)
    else
      let dd := DeleteDevice env "" lk.2
      match dd.1 with
      | .error e => (.error e, dd.2)
      | .ok _ => setupBaseImageCreate env fuel dd.2
  | .error _ =>
    if lk.2.thinPoolDevice ≠ "" then
      match env.poolStatus lk.2.step with
      | none => (.error .poolStatusFail, tick lk.2)
      | some ps =>
        if ps.dataUsed ≠ 0 then (.error .usedDataBlocks, tick lk.2)
        else if ps.transactionId ≠ 0 then (.error .nonzeroTransId, tick lk.2)
        else setupBaseImageCreate env fuel (tick lk.2)
    else setupBaseImageCreate env fuel lk.2

/-- `strconv.ParseBool` (Go standard library). -/
def parseBool (str : String) : Option Bool :=
  if str = "1" ∨ str = "t" ∨ str = "T" ∨ str = "true" ∨ str = "TRUE" ∨ str = "True" then
    some true
  else if str = "0" ∨ str = "f" ∨ str = "F" ∨ str = "false" ∨ str = "FALSE" ∨ str = "False" then
    some false
  else none

/-- `strings.TrimPrefix`. -/
def trimPrefixStr (str pre : String) : String :=
  if pre.isPrefixOf str then str.drop pre.length else str

/-- The configuration fields `NewDeviceSet` assembles from its option
list (with their defaults as initialized there). -/
structure Config where
  dataLoopbackSize : Int
  metaDataLoopbackSize : Int
  baseFsSize : Nat
  filesystem : String
  mountOptions : String
  mkfsArgs : List String
  dataDevice : String
  metadataDevice : String
  thinPoolDevice : String
  doBlkDiscard : Bool
  thinpBlockSize : Nat
deriving DecidableEq

/-- The defaults set in the `DeviceSet` literal of `NewDeviceSet`. -/
def initialConfig : Config :=
  { dataLoopbackSize := 107374182400
    metaDataLoopbackSize := 2147483648
    baseFsSize := 10737418240
    filesystem := "ext4"
    mountOptions := ""
    mkfsArgs := []
    dataDevice := ""
    metadataDevice := ""
    thinPoolDevice := ""
    doBlkDiscard := true
    thinpBlockSize := 128 }

/-- `strings.ToLower` (Go standard library), characterwise over the
string's characters. -/
def strToLower (s : String) : String := ⟨s.data.map Char.toLower⟩

/-- One iteration of `NewDeviceSet`'s option switch, on an already
split key/value pair (`parsers.ParseKeyValueOpt` is external).  The
second component is the `foundBlkDiscard` flag; `none` is the
initialization failure (unknown key or unparsable value).  Casts
mirror Go: `uint64(size)` and `uint32(size)` reduce the `int64`
modulo the target width. -/
def applyOption (env : Env) (cfg : Config) (found : Bool) (kv : String × String) :
    Option (Config × Bool) :=
  let key := strToLower kv.1
  let val := kv.2
  if key = "dm.basesize" then
    match env.ramInBytes val with
    | none => none
    | some size => some ({ cfg with baseFsSize := (size % (18446744073709551616 : Int)).toNat }, found)
  else if key = "dm.loopdatasize" then
    match env.ramInBytes val with
    | none => none
    | some size => some ({ cfg with dataLoopbackSize := size }, found)
  else if key = "dm.loopmetadatasize" then
    match env.ramInBytes val with
    | none => none
    | some size => some ({ cfg with metaDataLoopbackSize := size }, found)
  else if key = "dm.fs" then
    if val ≠ "ext4" ∧ val ≠ "xfs" then none
    else some ({ cfg with filesystem := val }, found)
  else if key = "dm.mkfsarg" then
    some ({ cfg with mkfsArgs := cfg.mkfsArgs ++ [val] }, found)
  else if key = "dm.mountopt" then
    some ({ cfg with mountOptions := joinMountOptions cfg.mountOptions val }, found)
  else if key = "dm.metadatadev" then
    some ({ cfg with metadataDevice := val }, found)
  else if key = "dm.datadev" then
    some ({ cfg with dataDevice := val }, found)
  else if key = "dm.thinpooldev" then
    some ({ cfg with thinPoolDevice := trimPrefixStr val "/dev/mapper/" }, found)
  else if key = "dm.blkdiscard" then
    match parseBool val with
    | none => none
    | some b => some ({ cfg with doBlkDiscard := b }, true)
  else if key = "dm.blocksize" then
    match env.ramInBytes val with
    | none => none
    | some size => some ({ cfg with thinpBlockSize := (size % (4294967296 : Int)).toNat / 512 }, found)
  else none

/-- The option fold of `NewDeviceSet`. -/
def parseOptionsLoop (env : Env) : List (String × String) → Config → Bool →
    Option (Config × Bool)
  | [], cfg, found => some (cfg, found)
  | kv :: rest, cfg, found =>
    match applyOption env cfg found kv with
    | none => none
    | some (cfg1, found1) => parseOptionsLoop env rest cfg1 found1

/-- The configuration `NewDeviceSet` ends up with before
`initDevmapper`: the option fold over the defaults, then — only when
no `dm.blkdiscard` option was seen — `doBlkDiscard` is turned off if a
raw data device or an external thin-pool is configured. -/
def newDeviceSetConfig (env : Env) (options : List (String × String)) : Option Config :=
  match parseOptionsLoop env options initialConfig false with
  | none => none
  | some (cfg, found) =>
    if !found ∧ (cfg.dataDevice ≠ "" ∨ cfg.thinPoolDevice ≠ "") then
      some { cfg with doBlkDiscard := false }
    else some cfg

/-- `N` successive `MountDevice` calls at the same path, stopping at
the first failure. -/
def iterMount (env : Env) (hash p mountLabel : String) : Nat → DeviceSet →
    Except DmError Unit × DeviceSet
  | 0, s => (.ok (), s)
  | n + 1, s =>
    let m := MountDevice env hash p mountLabel s
    match m.1 with
    | .ok _ => iterMount env hash p mountLabel n m.2
    | .error e => (.error e, m.2)

/-- `N` successive `UnmountDevice` calls, stopping at the first
failure. -/
def iterUnmount (env : Env) (hash : String) : Nat → DeviceSet →
    Except DmError Unit × DeviceSet
  | 0, s => (.ok (), s)
  | n + 1, s =>
    let u := UnmountDevice env hash s
    match u.1 with
    | .ok _ => iterUnmount env hash n u.2
    | .error e => (.error e, u.2)

/-- Number of kernel mount attempts in a trace. -/
def countMount (t : List Event) : Nat :=
  (t.filter fun e => match e with | .mount .. => true | _ => false).length

/-- Number of kernel unmount calls in a trace. -/
def countUnmount (t : List Event) : Nat :=
  (t.filter fun e => match e with | .unmount .. => true | _ => false).length

/-- Number of `deactivateDevice` invocations in a trace. -/
def countDeactivate (t : List Event) : Nat :=
  (t.filter fun e => match e with | .deactivate .. => true | _ => false).length

/-! Concrete fixtures used by the witness theorems. -/

/-- An all-success environment (kernel calls succeed, metadata writes
succeed, codecs are trivial). -/
def env0 : Env :=
  { wenv := fun _ => ⟨true, "0", some 0, true, true, true⟩
    createRes := fun _ => .ok
    boolRes := fun _ => true
    getInfoRes := fun _ => some true
    probeFs := fun _ => some "ext4"
    mountRes := fun _ => .ok
    poolStatus := fun _ => some ⟨0, 0, 0, 0, 0, 0⟩
    ramInBytes := fun _ => some 0
    encodeTrans := fun _ => []
    encodeDev := fun _ => []
    decodeTrans := fun _ => none
    decodeDev := fun _ => none
    formatLabel := fun _ _ => "" }

/-- A freshly initialized `DeviceSet` state. -/
def s0 : DeviceSet :=
  { Devices := fun _ => none
    TransactionId := 0
    OpenTransactionId := 0
    DeviceIdHash := ""
    DeviceId := 0
    NextDeviceId := 0
    deviceIdMap := fun _ => false
    fs := fun _ => none
    trace := []
    step := 0
    root := "/var/lib/docker/devmapper"
    devicePrefixName := "docker-8:1-42"
    thinPoolDevice := ""
    doBlkDiscard := true
    baseFsSize := 10737418240
    mountOptions := "" }

/-- A state in which device id 5 is marked used. -/
def s9 : DeviceSet := { s0 with deviceIdMap := fun b => b == 5 }

/-- An environment whose write oracle reports two bytes written. -/
def env3 : Env := { env0 with wenv := fun _ => ⟨true, "X", some 2, true, true, true⟩ }

/-- A device record mounted once at `/mnt/x`. -/
def infoA : DevInfo :=
  { Hash := "A", DeviceId := 2, Size := 7, TransactionId := 1, Initialized := true,
    mountCount := 1, mountPath := "/mnt/x" }

/-- A state whose registry holds `infoA` under hash `A`. -/
def s6 : DeviceSet :=
  { s0 with Devices := fun h => if h = "A" then some infoA else none }

/-- An environment whose boolean oracle always fails. -/
def envFail : Env := { env0 with boolRes := fun _ => false }

/-- A pending-transaction record: open id 7, hash `B`, device id 3. -/
def tT : Transaction :=
  { OpenTransactionId := 7, DeviceIdHash := "B", DeviceId := 3 }

/-- An environment whose transaction codec decodes any bytes to `tT`. -/
def envT : Env := { env0 with decodeTrans := (fun _ => some tT) }

/-- A state whose filesystem holds a pending-transaction file. -/
def sT : DeviceSet :=
  { s0 with fs := (fun p => if p = transactionMetaFile s0 then some [1] else none) }

/-- A fresh state configured with an external thin-pool device. -/
def sP : DeviceSet := { s0 with thinPoolDevice := "/dev/mapper/pool" }

/-- A device record registered but not mounted. -/
def infoZ : DevInfo :=
  { Hash := "A", DeviceId := 2, Size := 7, TransactionId := 1, Initialized := true,
    mountCount := 0, mountPath := "" }

/-- A state whose registry holds the unmounted `infoZ` under hash `A`. -/
def sZ : DeviceSet :=
  { s0 with Devices := (fun h => if h = "A" then some infoZ else none) }

/-- An option list supplying a raw data device and nothing else. -/
def optsD : List (String × String) := [("dm.datadev", "/dev/sda")]

/-- The configuration produced by `optsD`: raw data device, blkdiscard
defaulted off. -/
def cfgD : Config := { initialConfig with dataDevice := "/dev/sda", doBlkDiscard := false }

/-- The configuration produced by `optsD` plus an explicit
`dm.blkdiscard=true`: the explicit value survives the raw device. -/
def cfgE : Config := { initialConfig with dataDevice := "/dev/sda", doBlkDiscard := true }

end Devmapper

namespace Devmapper

/-! ### Basic lemmas about the id bitmap and the allocator -/

theorem bitIndex_eq (n : Nat) : bitIndex n = n := by
  unfold bitIndex; omega

theorem markDeviceIdUsed_map (s : DeviceSet) (i b : Nat) :
    (markDeviceIdUsed s i).deviceIdMap b = if b = i then true else s.deviceIdMap b := by
  simp [markDeviceIdUsed, bitIndex_eq]

theorem markDeviceIdFree_map (s : DeviceSet) (i b : Nat) :
    (markDeviceIdFree s i).deviceIdMap b = if b = i then false else s.deviceIdMap b := by
  simp [markDeviceIdFree, bitIndex_eq]

theorem isDeviceIdFree_eq (s : DeviceSet) (i : Nat) :
    isDeviceIdFree s i = !(s.deviceIdMap i) := by
  simp [isDeviceIdFree, bitIndex_eq]

theorem findFreeLoop_none_shape (fuel : Nat) : ∀ s : DeviceSet,
    (findFreeLoop s fuel).1 = none →
    ∃ c, (findFreeLoop s fuel).2 = { s with NextDeviceId := c } := by
  induction fuel with
  | zero => intro s _; exact ⟨s.NextDeviceId, rfl⟩
  | succ n ih =>
    intro s h
    unfold findFreeLoop at h ⊢
    by_cases hc : isDeviceIdFree s s.NextDeviceId
    · simp [hc] at h
    · simp only [hc, if_false, Bool.false_eq_true] at h ⊢
      obtain ⟨c, hcEq⟩ := ih (incNextDeviceId s) h
      exact ⟨c, hcEq⟩

theorem findFreeLoop_preserve (fuel : Nat) : ∀ (s : DeviceSet) (d : Nat),
    s.deviceIdMap d = true → (findFreeLoop s fuel).2.deviceIdMap d = true := by
  induction fuel with
  | zero => intro s d hd; exact hd
  | succ n ih =>
    intro s d hd
    unfold findFreeLoop
    by_cases hc : isDeviceIdFree s s.NextDeviceId
    · simp only [hc, if_true]
      rw [markDeviceIdUsed_map]
      split <;> simp [hd]
    · simp only [hc, if_false, Bool.false_eq_true]
      exact ih (incNextDeviceId s) d hd

theorem findFreeLoop_some_char (fuel : Nat) : ∀ (s : DeviceSet) (id : Nat) (s' : DeviceSet),
    s.NextDeviceId < maxDeviceId + 1 →
    findFreeLoop s fuel = (some id, s') →
    s.deviceIdMap id = false ∧
    s' = markDeviceIdUsed { s with NextDeviceId := id } id ∧
    ∃ k, k < fuel ∧ id = (s.NextDeviceId + k) % (maxDeviceId + 1) ∧
      ∀ j, j < k → s.deviceIdMap ((s.NextDeviceId + j) % (maxDeviceId + 1)) = true := by
  induction fuel with
  | zero => intro s id s' _ h; simp [findFreeLoop] at h
  | succ n ih =>
    intro s id s' hlt h
    unfold findFreeLoop at h
    by_cases hc : isDeviceIdFree s s.NextDeviceId
    · simp only [hc, if_true, Prod.mk.injEq, Option.some.injEq] at h
      obtain ⟨hid, hs'⟩ := h
      subst hid
      refine ⟨?_, ?_, 0, Nat.succ_pos n, ?_, ?_⟩
      · rw [isDeviceIdFree_eq] at hc
        simpa using hc
      · exact hs'.symm
      · rw [Nat.add_zero, Nat.mod_eq_of_lt hlt]
      · intro j hj; omega
    · simp only [hc, if_false, Bool.false_eq_true] at h
      have hlt1 : (incNextDeviceId s).NextDeviceId < maxDeviceId + 1 := by
        simp only [incNextDeviceId]
        exact Nat.mod_lt _ (by norm_num [maxDeviceId])
      obtain ⟨h1, h2, k, hk, hid, hall⟩ := ih (incNextDeviceId s) id s' hlt1 h
      refine ⟨h1, h2, k + 1, by omega, ?_, ?_⟩
      · simp only [incNextDeviceId] at hid
        rw [Nat.mod_add_mod] at hid
        have : s.NextDeviceId + 1 + k = s.NextDeviceId + (k + 1) := by omega
        rwa [this] at hid
      · intro j hj
        cases j with
        | zero =>
          rw [Nat.add_zero, Nat.mod_eq_of_lt hlt]
          rw [isDeviceIdFree_eq] at hc
          simpa using hc
        | succ j' =>
          have := hall j' (by omega)
          simp only [incNextDeviceId] at this
          rw [Nat.mod_add_mod] at this
          have heq : s.NextDeviceId + 1 + j' = s.NextDeviceId + (j' + 1) := by omega
          rwa [heq] at this

theorem findFreeLoop_all_used (fuel : Nat) : ∀ s : DeviceSet,
    s.NextDeviceId < maxDeviceId + 1 →
    (∀ i, i < maxDeviceId + 1 → s.deviceIdMap i = true) →
    (findFreeLoop s fuel).1 = none := by
  induction fuel with
  | zero => intro s _ _; rfl
  | succ n ih =>
    intro s hlt hall
    unfold findFreeLoop
    have hc : isDeviceIdFree s s.NextDeviceId = false := by
      rw [isDeviceIdFree_eq, hall s.NextDeviceId hlt]; rfl
    simp only [hc, if_false, Bool.false_eq_true]
    refine ih (incNextDeviceId s) ?_ hall
    simp only [incNextDeviceId]
    exact Nat.mod_lt _ (by norm_num [maxDeviceId])

/-- C4 — Device-id allocation: `getNextFreeDeviceId` first advances the
cursor by one modulo 2^24, then scans at most 2^24 cursor positions;
it returns the first id whose bitmap bit is clear, having set that bit
and left the cursor at the returned id; if all 2^24 ids are used it
fails, returning no id and leaving the bitmap unchanged. -/
theorem c4_device_id_allocation (s : DeviceSet) :
    (∀ (id : Nat) (s' : DeviceSet), getNextFreeDeviceId s = (some id, s') →
      s.deviceIdMap id = false ∧
      s'.deviceIdMap id = true ∧
      (∀ b, b ≠ id → s'.deviceIdMap b = s.deviceIdMap b) ∧
      s'.NextDeviceId = id ∧
      ∃ k, k ≤ maxDeviceId ∧ id = (s.NextDeviceId + 1 + k) % (maxDeviceId + 1) ∧
        ∀ j, j < k → s.deviceIdMap ((s.NextDeviceId + 1 + j) % (maxDeviceId + 1)) = true)
    ∧ ((∀ i, i < maxDeviceId + 1 → s.deviceIdMap i = true) →
      (getNextFreeDeviceId s).1 = none ∧
      (getNextFreeDeviceId s).2.deviceIdMap = s.deviceIdMap) := by
  constructor
  · intro id s' h
    have hlt : (incNextDeviceId s).NextDeviceId < maxDeviceId + 1 := by
      simp only [incNextDeviceId]
      exact Nat.mod_lt _ (by norm_num [maxDeviceId])
    obtain ⟨h1, h2, k, hk, hid, hall⟩ :=
      findFreeLoop_some_char (maxDeviceId + 1) (incNextDeviceId s) id s' hlt h
    have hmap : ∀ b, s'.deviceIdMap b = if b = id then true else s.deviceIdMap b := by
      intro b
      rw [h2, markDeviceIdUsed_map]
      rfl
    refine ⟨h1, ?_, ?_, ?_, k, by omega, ?_, ?_⟩
    · rw [hmap]; simp
    · intro b hb; rw [hmap]; simp [hb]
    · rw [h2]; rfl
    · simp only [incNextDeviceId] at hid
      rwa [Nat.mod_add_mod] at hid
    · intro j hj
      have := hall j hj
      simp only [incNextDeviceId] at this
      rwa [Nat.mod_add_mod] at this
  · intro hall
    have hlt : (incNextDeviceId s).NextDeviceId < maxDeviceId + 1 := by
      simp only [incNextDeviceId]
      exact Nat.mod_lt _ (by norm_num [maxDeviceId])
    have hnone : (getNextFreeDeviceId s).1 = none :=
      findFreeLoop_all_used (maxDeviceId + 1) (incNextDeviceId s) hlt hall
    refine ⟨hnone, ?_⟩
    obtain ⟨c, hc⟩ := findFreeLoop_none_shape (maxDeviceId + 1) (incNextDeviceId s) hnone
    rw [show (getNextFreeDeviceId s).2 = (findFreeLoop (incNextDeviceId s) (maxDeviceId + 1)).2 from rfl, hc]
    rfl

/-- Witness for C4 at a concrete empty bitmap: the allocator returns id
1 from cursor 0, having marked it used. -/
theorem c4_device_id_allocation_witness :
    s0.deviceIdMap 1 = false ∧ (getNextFreeDeviceId s0).2.deviceIdMap 1 = true ∧
      (getNextFreeDeviceId s0).2.NextDeviceId = 1 := by
  have h := (c4_device_id_allocation s0).1 1 (getNextFreeDeviceId s0).2 rfl
  exact ⟨h.1, h.2.1, h.2.2.2.1⟩

/-! ### Shape lemmas: which state components each operation can touch -/

theorem wmf_shape (env : Env) (d : List Nat) (p : String) (s : DeviceSet) :
    ∃ f, (writeMetaFile env d p s).2 = { s with fs := f, step := s.step + 1 } := by
  unfold writeMetaFile
  dsimp only
  split
  · exact ⟨s.fs, rfl⟩
  · split
    · exact ⟨_, rfl⟩
    · split
      · exact ⟨_, rfl⟩
      · split
        · exact ⟨_, rfl⟩
        · split
          · exact ⟨_, rfl⟩
          · split
            · exact ⟨_, rfl⟩
            · exact ⟨_, rfl⟩

theorem saveTransactionMetaData_shape (env : Env) (s : DeviceSet) :
    ∃ f, (saveTransactionMetaData env s).2 = { s with fs := f, step := s.step + 1 } :=
  wmf_shape env _ _ s

theorem saveMetadata_shape (env : Env) (info : DevInfo) (s : DeviceSet) :
    ∃ f, (saveMetadata env info s).2 = { s with fs := f, step := s.step + 1 } :=
  wmf_shape env _ _ s

theorem refreshTransaction_shape (env : Env) (deviceId : Nat) (s : DeviceSet) :
    ∃ f, (refreshTransaction env deviceId s).2 =
      { s with DeviceId := deviceId, fs := f, step := s.step + 1 } := by
  obtain ⟨f, hf⟩ := saveTransactionMetaData_shape env { s with DeviceId := deviceId }
  exact ⟨f, hf⟩

theorem openTransaction_shape (env : Env) (hash : String) (deviceId : Nat) (s : DeviceSet) :
    ∃ f, (openTransaction env hash deviceId s).2 =
      { s with OpenTransactionId := u64Mod (s.TransactionId + 1),
               DeviceIdHash := hash, DeviceId := deviceId,
               fs := f, step := s.step + 1 } := by
  obtain ⟨f, hf⟩ :=
    saveTransactionMetaData_shape env
      { allocateTransactionId s with DeviceIdHash := hash, DeviceId := deviceId }
  exact ⟨f, hf⟩

theorem registerDevice_shape (env : Env) (deviceId : Nat) (hash : String) (size txid : Nat)
    (s : DeviceSet) :
    ∃ D f, (registerDevice env deviceId hash size txid s).2 =
      { s with Devices := D, fs := f, step := s.step + 1 } := by
  unfold registerDevice
  dsimp only
  split
  · obtain ⟨f, hf⟩ := saveMetadata_shape env _ _
    exact ⟨_, f, by rw [hf]⟩
  · obtain ⟨f, hf⟩ := saveMetadata_shape env _ _
    exact ⟨_, f, by rw [hf]⟩

theorem unregisterDevice_shape (env : Env) (hash : String) (s : DeviceSet) :
    ∃ D f, (unregisterDevice env hash s).2 =
      { s with Devices := D, fs := f, step := s.step + 1 } := by
  unfold unregisterDevice removeMetadata osRemoveAll
  dsimp only
  by_cases hb : env.boolRes s.step
  · simp only [hb, if_true]
    exact ⟨_, _, rfl⟩
  · simp only [hb, if_false, Bool.false_eq_true]
    exact ⟨_, _, rfl⟩

theorem closeTransaction_shape (env : Env) (s : DeviceSet) :
    ∃ T, (closeTransaction env s).2 =
      { s with
        trace := (s.trace ++
            [Event.setTransactionId (getPoolDevName s) s.TransactionId s.OpenTransactionId]),
        step := s.step + 1, TransactionId := T } := by
  unfold closeTransaction updatePoolTransactionId dmSetTransactionId
  dsimp only
  by_cases hb : env.boolRes s.step
  · simp only [hb, if_true]
    exact ⟨s.OpenTransactionId, rfl⟩
  · simp only [hb, if_false, Bool.false_eq_true]
    exact ⟨s.TransactionId, rfl⟩

theorem closeTransaction_fs (env : Env) (s : DeviceSet) :
    (closeTransaction env s).2.fs = s.fs := by
  obtain ⟨T, hT⟩ := closeTransaction_shape env s
  rw [hT]

theorem closeTransaction_ok_char (env : Env) (s : DeviceSet)
    (h : (closeTransaction env s).1 = .ok ()) :
    (closeTransaction env s).2.TransactionId = s.OpenTransactionId := by
  unfold closeTransaction updatePoolTransactionId dmSetTransactionId at h ⊢
  dsimp only at h ⊢
  by_cases hb : env.boolRes s.step
  · simp only [hb, if_true, reduceIte]
    rfl
  · simp [hb] at h

/-! ### C9: superseded device ids are never freed -/

theorem getNextFreeDeviceId_preserve (s : DeviceSet) (d : Nat)
    (hd : s.deviceIdMap d = true) :
    (getNextFreeDeviceId s).2.deviceIdMap d = true :=
  findFreeLoop_preserve (maxDeviceId + 1) (incNextDeviceId s) d hd

theorem createDeviceLoop_preserve (env : Env) (fuel : Nat) :
    ∀ (id0 : Nat) (s : DeviceSet) (d : Nat),
    s.deviceIdMap d = true → d ≠ (createDeviceLoop env fuel id0 s).2.1 →
    (createDeviceLoop env fuel id0 s).2.2.deviceIdMap d = true := by
  induction fuel with
  | zero => intro id0 s d hd _; exact hd
  | succ n ih =>
    intro id0 s d hd hne
    unfold createDeviceLoop at hne ⊢
    dsimp only [dmCreateDevice] at hne ⊢
    cases hcr : env.createRes s.step with
    | ok =>
      simp only [hcr] at hne ⊢
      exact hd
    | err =>
      simp only [hcr] at hne ⊢
      rw [markDeviceIdFree_map]
      simp only [if_neg hne]
      exact hd
    | idExists =>
      simp only [hcr] at hne ⊢
      have hs2 : (getNextFreeDeviceId
          (tick (emit s (.createDevice (getPoolDevName s) id0)))).2.deviceIdMap d = true :=
        getNextFreeDeviceId_preserve _ d hd
      cases hg : (getNextFreeDeviceId
          (tick (emit s (.createDevice (getPoolDevName s) id0)))).1 with
      | none =>
        simp only [hg] at hne ⊢
        exact hs2
      | some newId =>
        simp only [hg] at hne ⊢
        obtain ⟨f, hf⟩ := refreshTransaction_shape env newId
          (getNextFreeDeviceId (tick (emit s (.createDevice (getPoolDevName s) id0)))).2
        refine ih newId _ d ?_ hne
        rw [hf]
        exact hs2

theorem createSnapDeviceLoop_preserve (env : Env) (baseName : String) (baseId : Nat)
    (fuel : Nat) :
    ∀ (id0 : Nat) (s : DeviceSet) (d : Nat),
    s.deviceIdMap d = true →
    d ≠ (createSnapDeviceLoop env baseName baseId fuel id0 s).2.1 →
    (createSnapDeviceLoop env baseName baseId fuel id0 s).2.2.deviceIdMap d = true := by
  induction fuel with
  | zero => intro id0 s d hd _; exact hd
  | succ n ih =>
    intro id0 s d hd hne
    unfold createSnapDeviceLoop at hne ⊢
    dsimp only [dmCreateSnapDevice] at hne ⊢
    cases hcr : env.createRes s.step with
    | ok =>
      simp only [hcr] at hne ⊢
      exact hd
    | err =>
      simp only [hcr] at hne ⊢
      rw [markDeviceIdFree_map]
      simp only [if_neg hne]
      exact hd
    | idExists =>
      simp only [hcr] at hne ⊢
      have hs2 : (getNextFreeDeviceId
          (tick (emit s (.createSnapDevice (getPoolDevName s) id0 baseName baseId)))).2.deviceIdMap d
            = true :=
        getNextFreeDeviceId_preserve _ d hd
      cases hg : (getNextFreeDeviceId
          (tick (emit s (.createSnapDevice (getPoolDevName s) id0 baseName baseId)))).1 with
      | none =>
        simp only [hg] at hne ⊢
        exact hs2
      | some newId =>
        simp only [hg] at hne ⊢
        obtain ⟨f, hf⟩ := refreshTransaction_shape env newId
          (getNextFreeDeviceId
            (tick (emit s (.createSnapDevice (getPoolDevName s) id0 baseName baseId)))).2
        refine ih newId _ d ?_ hne
        rw [hf]
        exact hs2

theorem createRegisterDevice_preserve (env : Env) (fuel : Nat) (hash : String)
    (s : DeviceSet) (d : Nat) (hd : s.deviceIdMap d = true)
    (hne : d ≠ (createRegisterDevice env fuel hash s).2.1) :
    (createRegisterDevice env fuel hash s).2.2.deviceIdMap d = true := by
  unfold createRegisterDevice at hne ⊢
  dsimp only at hne ⊢
  set g := getNextFreeDeviceId s with hgdef
  have hg2 : g.2.deviceIdMap d = true := getNextFreeDeviceId_preserve s d hd
  cases hg : g.1 with
  | none =>
    simp only [hg] at hne ⊢
    exact hg2
  | some deviceId =>
    simp only [hg] at hne ⊢
    set o := openTransaction env hash deviceId g.2 with hodef
    obtain ⟨fo, hfo⟩ := openTransaction_shape env hash deviceId g.2
    have ho2 : o.2.deviceIdMap d = true := by
      rw [hodef, hfo]; exact hg2
    cases ho : o.1 with
    | error e =>
      simp only [ho] at hne ⊢
      rw [markDeviceIdFree_map, if_neg hne]
      exact ho2
    | ok _ =>
      simp only [ho] at hne ⊢
      set l := createDeviceLoop env fuel deviceId o.2 with hldef
      cases hl : l.1 with
      | error e =>
        simp only [hl] at hne ⊢
        exact createDeviceLoop_preserve env fuel deviceId o.2 d ho2 hne
      | ok _ =>
        simp only [hl] at hne ⊢
        set r := registerDevice env l.2.1 hash l.2.2.baseFsSize l.2.2.OpenTransactionId l.2.2
          with hrdef
        cases hr : r.1 with
        | error e =>
          simp only [hr] at hne ⊢
          have hl2 : l.2.2.deviceIdMap d = true :=
            createDeviceLoop_preserve env fuel deviceId o.2 d ho2 hne
          obtain ⟨D, fr, hfr⟩ :=
            registerDevice_shape env l.2.1 hash l.2.2.baseFsSize l.2.2.OpenTransactionId l.2.2
          rw [markDeviceIdFree_map, if_neg hne]
          show r.2.deviceIdMap d = true
          rw [hrdef, hfr]
          exact hl2
        | ok info =>
          simp only [hr] at hne ⊢
          obtain ⟨D, fr, hfr⟩ :=
            registerDevice_shape env l.2.1 hash l.2.2.baseFsSize l.2.2.OpenTransactionId l.2.2
          set c := closeTransaction env r.2 with hcdef
          obtain ⟨T, hT⟩ := closeTransaction_shape env r.2
          cases hc : c.1 with
          | error e =>
            simp only [hc] at hne ⊢
            have hl2 : l.2.2.deviceIdMap d = true :=
              createDeviceLoop_preserve env fuel deviceId o.2 d ho2 hne
            have hr2 : r.2.deviceIdMap d = true := by
              rw [hrdef, hfr]; exact hl2
            have hc2 : c.2.deviceIdMap d = true := by
              rw [hcdef, hT]; exact hr2
            obtain ⟨D2, f2, hf2⟩ := unregisterDevice_shape env hash c.2
            rw [markDeviceIdFree_map, if_neg hne]
            show (unregisterDevice env hash c.2).2.deviceIdMap d = true
            rw [hf2]
            exact hc2
          | ok _ =>
            simp only [hc] at hne ⊢
            have hl2 : l.2.2.deviceIdMap d = true :=
              createDeviceLoop_preserve env fuel deviceId o.2 d ho2 hne
            have hr2 : r.2.deviceIdMap d = true := by
              rw [hrdef, hfr]; exact hl2
            have hc2 : c.2.deviceIdMap d = true := by
              rw [hcdef, hT]; exact hr2
            exact hc2

theorem createRegisterSnapDevice_preserve (env : Env) (fuel : Nat) (hash : String)
    (baseInfo : DevInfo) (s : DeviceSet) (d : Nat) (hd : s.deviceIdMap d = true)
    (hne : d ≠ (createRegisterSnapDevice env fuel hash baseInfo s).2.1) :
    (createRegisterSnapDevice env fuel hash baseInfo s).2.2.deviceIdMap d = true := by
  unfold createRegisterSnapDevice at hne ⊢
  dsimp only at hne ⊢
  set g := getNextFreeDeviceId s with hgdef
  have hg2 : g.2.deviceIdMap d = true := getNextFreeDeviceId_preserve s d hd
  cases hg : g.1 with
  | none =>
    simp only [hg] at hne ⊢
    exact hg2
  | some deviceId =>
    simp only [hg] at hne ⊢
    set o := openTransaction env hash deviceId g.2 with hodef
    obtain ⟨fo, hfo⟩ := openTransaction_shape env hash deviceId g.2
    have ho2 : o.2.deviceIdMap d = true := by
      rw [hodef, hfo]; exact hg2
    cases ho : o.1 with
    | error e =>
      simp only [ho] at hne ⊢
      rw [markDeviceIdFree_map, if_neg hne]
      exact ho2
    | ok _ =>
      simp only [ho] at hne ⊢
      set l := createSnapDeviceLoop env (infoName o.2 baseInfo) baseInfo.DeviceId fuel deviceId o.2
        with hldef
      cases hl : l.1 with
      | error e =>
        simp only [hl] at hne ⊢
        exact createSnapDeviceLoop_preserve env (infoName o.2 baseInfo) baseInfo.DeviceId
          fuel deviceId o.2 d ho2 hne
      | ok _ =>
        simp only [hl] at hne ⊢
        set r := registerDevice env l.2.1 hash baseInfo.Size l.2.2.OpenTransactionId l.2.2
          with hrdef
        cases hr : r.1 with
        | error e =>
          simp only [hr] at hne ⊢
          have hl2 : l.2.2.deviceIdMap d = true :=
            createSnapDeviceLoop_preserve env (infoName o.2 baseInfo) baseInfo.DeviceId
              fuel deviceId o.2 d ho2 hne
          obtain ⟨D, fr, hfr⟩ :=
            registerDevice_shape env l.2.1 hash baseInfo.Size l.2.2.OpenTransactionId l.2.2
          rw [markDeviceIdFree_map, if_neg hne]
          show r.2.deviceIdMap d = true
          rw [hrdef, hfr]
          exact hl2
        | ok info =>
          simp only [hr] at hne ⊢
          obtain ⟨D, fr, hfr⟩ :=
            registerDevice_shape env l.2.1 hash baseInfo.Size l.2.2.OpenTransactionId l.2.2
          set c := closeTransaction env r.2 with hcdef
          obtain ⟨T, hT⟩ := closeTransaction_shape env r.2
          cases hc : c.1 with
          | error e =>
            simp only [hc] at hne ⊢
            have hl2 : l.2.2.deviceIdMap d = true :=
              createSnapDeviceLoop_preserve env (infoName o.2 baseInfo) baseInfo.DeviceId
                fuel deviceId o.2 d ho2 hne
            have hr2 : r.2.deviceIdMap d = true := by
              rw [hrdef, hfr]; exact hl2
            have hc2 : c.2.deviceIdMap d = true := by
              rw [hcdef, hT]; exact hr2
            obtain ⟨D2, f2, hf2⟩ := unregisterDevice_shape env hash c.2
            rw [markDeviceIdFree_map, if_neg hne]
            show (unregisterDevice env hash c.2).2.deviceIdMap d = true
            rw [hf2]
            exact hc2
          | ok _ =>
            simp only [hc] at hne ⊢
            have hl2 : l.2.2.deviceIdMap d = true :=
              createSnapDeviceLoop_preserve env (infoName o.2 baseInfo) baseInfo.DeviceId
                fuel deviceId o.2 d ho2 hne
            have hr2 : r.2.deviceIdMap d = true := by
              rw [hrdef, hfr]; exact hl2
            have hc2 : c.2.deviceIdMap d = true := by
              rw [hcdef, hT]; exact hr2
            exact hc2

/-- C9 — In the `DeviceIdExists` retry loops of `createRegisterDevice`
and `createRegisterSnapDevice`, a used id that is not the loop's
current (most recently allocated) id is still marked used when the
loop — and the whole surrounding call, with all its error-cleanup
paths — finishes.  Applied at the state of a retry step, this says the
superseded id's bit is never cleared again; the only id any cleanup
path frees is the most recently allocated one (the returned middle
component). -/
theorem c9_superseded_id_stays_used (env : Env) (fuel : Nat) (hash baseName : String)
    (baseId : Nat) (baseInfo : DevInfo) (id0 : Nat) (s : DeviceSet) (d : Nat)
    (hd : s.deviceIdMap d = true) :
    (d ≠ (createDeviceLoop env fuel id0 s).2.1 →
      (createDeviceLoop env fuel id0 s).2.2.deviceIdMap d = true)
    ∧ (d ≠ (createSnapDeviceLoop env baseName baseId fuel id0 s).2.1 →
      (createSnapDeviceLoop env baseName baseId fuel id0 s).2.2.deviceIdMap d = true)
    ∧ (d ≠ (createRegisterDevice env fuel hash s).2.1 →
      (createRegisterDevice env fuel hash s).2.2.deviceIdMap d = true)
    ∧ (d ≠ (createRegisterSnapDevice env fuel hash baseInfo s).2.1 →
      (createRegisterSnapDevice env fuel hash baseInfo s).2.2.deviceIdMap d = true) :=
  ⟨fun hne => createDeviceLoop_preserve env fuel id0 s d hd hne,
   fun hne => createSnapDeviceLoop_preserve env baseName baseId fuel id0 s d hd hne,
   fun hne => createRegisterDevice_preserve env fuel hash s d hd hne,
   fun hne => createRegisterSnapDevice_preserve env fuel hash baseInfo s d hd hne⟩

/-- Witness for C9: device id 5 is used; after a full
`createRegisterDevice` run that allocates and keeps id 6, bit 5 is
still set. -/
theorem c9_superseded_id_stays_used_witness :
    s9.deviceIdMap 5 = true ∧
      (createRegisterDevice env0 2 "A" { s9 with NextDeviceId := 5 }).2.2.deviceIdMap 5 = true := by
  refine ⟨rfl, ?_⟩
  exact (c9_superseded_id_stays_used env0 2 "A" "b" 1 ⟨"b", 1, 7, 1, true, 0, ""⟩ 0
    { s9 with NextDeviceId := 5 } 5 rfl).2.2.1 (by decide)

/-! ### C3: atomic metadata write -/

/-- C3 — `writeMetaFile` persists via a temp file created in the
metadata directory (a sibling of the target), writes the entire byte
slice (a short write yields `io.ErrShortWrite`), fsyncs, closes, then
renames over the target: on success the target holds exactly the given
bytes (and the temp name is gone); on any error the target's previous
content is unchanged. -/
theorem c3_atomic_write (env : Env) (jsonData : List Nat) (fname filePath : String)
    (s : DeviceSet)
    (hfp : filePath = metadataDir s ++ "/" ++ fname)
    (hne : wmfTmpPath env s ≠ filePath) :
    (∃ suffix, wmfTmpPath env s = metadataDir s ++ "/" ++ suffix)
    ∧ ((writeMetaFile env jsonData filePath s).1 = .ok () →
        (writeMetaFile env jsonData filePath s).2.fs filePath = some jsonData ∧
        (writeMetaFile env jsonData filePath s).2.fs (wmfTmpPath env s) = none)
    ∧ (∀ e, (writeMetaFile env jsonData filePath s).1 = .error e →
        (writeMetaFile env jsonData filePath s).2.fs filePath = s.fs filePath)
    ∧ (∀ n, (env.wenv s.step).tmpOk = true → (env.wenv s.step).written = some n →
        n < jsonData.length →
        (writeMetaFile env jsonData filePath s).1 = .error .shortWrite) := by
  have hfne : filePath ≠ metadataDir s ++ "/.tmp" ++ (env.wenv s.step).tmpName := by
    intro hh
    exact hne hh.symm
  refine ⟨⟨".tmp" ++ (env.wenv s.step).tmpName, ?_⟩, ?_, ?_, ?_⟩
  · show metadataDir s ++ "/.tmp" ++ (env.wenv s.step).tmpName
      = metadataDir s ++ "/" ++ (".tmp" ++ (env.wenv s.step).tmpName)
    rw [String.append_assoc (metadataDir s) "/" (".tmp" ++ (env.wenv s.step).tmpName),
      ← String.append_assoc "/" ".tmp" (env.wenv s.step).tmpName,
      ← String.append_assoc (metadataDir s) ("/" ++ ".tmp") (env.wenv s.step).tmpName]
    rfl
  · intro h
    unfold writeMetaFile at h ⊢
    dsimp only at h ⊢
    by_cases h1 : (env.wenv s.step).tmpOk
    · simp only [h1, Bool.not_true, Bool.false_eq_true, if_false] at h ⊢
      cases h2 : (env.wenv s.step).written with
      | none => simp [h2] at h
      | some n =>
        simp only [h2] at h ⊢
        by_cases h3 : n < jsonData.length
        · simp [h3] at h
        · rw [if_neg h3] at h ⊢
          by_cases h4 : (env.wenv s.step).syncOk
          · simp only [h4, Bool.not_true, Bool.false_eq_true, if_false] at h ⊢
            by_cases h5 : (env.wenv s.step).closeOk
            · simp only [h5, Bool.not_true, Bool.false_eq_true, if_false] at h ⊢
              by_cases h6 : (env.wenv s.step).renameOk
              · simp only [h6, Bool.not_true, Bool.false_eq_true, if_false] at h ⊢
                unfold wmfTmpPath
                constructor
                · rw [if_neg hfne]
                  simp only [eq_self_iff_true, if_true, fsSet]
                  rw [List.take_of_length_le (Nat.le_of_not_lt h3)]
                · simp only [eq_self_iff_true, if_true]
              · simp [h6] at h
            · simp [h5] at h
          · simp [h4] at h
    · simp [h1] at h
  · intro e h
    unfold writeMetaFile at h ⊢
    dsimp only at h ⊢
    by_cases h1 : (env.wenv s.step).tmpOk
    · simp only [h1, Bool.not_true, Bool.false_eq_true, if_false] at h ⊢
      cases h2 : (env.wenv s.step).written with
      | none =>
        simp only [h2] at h ⊢
        simp [fsSet, hfne, tick]
      | some n =>
        simp only [h2] at h ⊢
        by_cases h3 : n < jsonData.length
        · rw [if_pos h3] at h ⊢
          simp [fsSet, hfne, tick]
        · rw [if_neg h3] at h ⊢
          by_cases h4 : (env.wenv s.step).syncOk
          · simp only [h4, Bool.not_true, Bool.false_eq_true, if_false] at h ⊢
            by_cases h5 : (env.wenv s.step).closeOk
            · simp only [h5, Bool.not_true, Bool.false_eq_true, if_false] at h ⊢
              by_cases h6 : (env.wenv s.step).renameOk
              · simp only [h6, Bool.not_true, Bool.false_eq_true, if_false] at h
                simp at h
              · simp only [h6, Bool.not_true, Bool.true_eq_false, if_true] at h ⊢
                simp [fsSet, hfne, tick]
            · simp only [h5, Bool.not_true, Bool.true_eq_false, if_true] at h ⊢
              simp [fsSet, hfne, tick]
          · simp only [h4, Bool.not_true, Bool.true_eq_false, if_true] at h ⊢
            simp [fsSet, hfne, tick]
    · simp only [Bool.not_eq_true] at h1
      simp only [h1, Bool.not_false, if_true] at h ⊢
      simp [tick]
  · intro n h1 h2 h3
    unfold writeMetaFile
    dsimp only
    simp only [h1, Bool.not_true, Bool.false_eq_true, if_false, h2]
    rw [if_pos h3]

/-- Witness for C3 at a concrete environment: a two-byte payload is
atomically published to `<metadataDir>/base`. -/
theorem c3_atomic_write_witness :
    (writeMetaFile env3 [7, 9] (metadataDir s0 ++ "/" ++ "base") s0).2.fs
      (metadataDir s0 ++ "/" ++ "base") = some [7, 9] :=
  ((c3_atomic_write env3 [7, 9] "base" (metadataDir s0 ++ "/" ++ "base") s0 rfl
    (by decide)).2.1 (by rfl)).1

/-! ### C2: transaction monotonicity -/

theorem findFreeLoop_shape (fuel : Nat) : ∀ s : DeviceSet,
    ∃ m c, (findFreeLoop s fuel).2 = { s with deviceIdMap := m, NextDeviceId := c } := by
  induction fuel with
  | zero => intro s; exact ⟨s.deviceIdMap, s.NextDeviceId, rfl⟩
  | succ n ih =>
    intro s
    unfold findFreeLoop
    by_cases hc : isDeviceIdFree s s.NextDeviceId
    · simp only [hc, if_true]
      exact ⟨_, s.NextDeviceId, rfl⟩
    · simp only [hc, if_false, Bool.false_eq_true]
      obtain ⟨m, c, hmc⟩ := ih (incNextDeviceId s)
      exact ⟨m, c, hmc⟩

theorem getNextFreeDeviceId_shape (s : DeviceSet) :
    ∃ m c, (getNextFreeDeviceId s).2 = { s with deviceIdMap := m, NextDeviceId := c } := by
  obtain ⟨m, c, hmc⟩ := findFreeLoop_shape (maxDeviceId + 1) (incNextDeviceId s)
  exact ⟨m, c, hmc⟩

theorem createDeviceLoop_tx (env : Env) (fuel : Nat) : ∀ (id0 : Nat) (s : DeviceSet),
    (createDeviceLoop env fuel id0 s).2.2.TransactionId = s.TransactionId ∧
    (createDeviceLoop env fuel id0 s).2.2.OpenTransactionId = s.OpenTransactionId := by
  induction fuel with
  | zero => intro id0 s; exact ⟨rfl, rfl⟩
  | succ n ih =>
    intro id0 s
    unfold createDeviceLoop
    dsimp only [dmCreateDevice]
    cases hcr : env.createRes s.step with
    | ok => exact ⟨rfl, rfl⟩
    | err => exact ⟨rfl, rfl⟩
    | idExists =>
      obtain ⟨m, c, hg⟩ := getNextFreeDeviceId_shape
        (tick (emit s (.createDevice (getPoolDevName s) id0)))
      cases hg1 : (getNextFreeDeviceId
          (tick (emit s (.createDevice (getPoolDevName s) id0)))).1 with
      | none =>
        refine ⟨?_, ?_⟩ <;> simp only [hg1] <;> rw [hg] <;> rfl
      | some newId =>
        simp only [hg1]
        obtain ⟨f, hf⟩ := refreshTransaction_shape env newId
          (getNextFreeDeviceId (tick (emit s (.createDevice (getPoolDevName s) id0)))).2
        have hi := ih newId
          ((refreshTransaction env newId
            (getNextFreeDeviceId (tick (emit s (.createDevice (getPoolDevName s) id0)))).2).2)
        constructor
        · rw [hi.1, hf, hg]
          rfl
        · rw [hi.2, hf, hg]
          rfl

theorem createSnapDeviceLoop_tx (env : Env) (baseName : String) (baseId : Nat) (fuel : Nat) :
    ∀ (id0 : Nat) (s : DeviceSet),
    (createSnapDeviceLoop env baseName baseId fuel id0 s).2.2.TransactionId = s.TransactionId ∧
    (createSnapDeviceLoop env baseName baseId fuel id0 s).2.2.OpenTransactionId
      = s.OpenTransactionId := by
  induction fuel with
  | zero => intro id0 s; exact ⟨rfl, rfl⟩
  | succ n ih =>
    intro id0 s
    unfold createSnapDeviceLoop
    dsimp only [dmCreateSnapDevice]
    cases hcr : env.createRes s.step with
    | ok => exact ⟨rfl, rfl⟩
    | err => exact ⟨rfl, rfl⟩
    | idExists =>
      obtain ⟨m, c, hg⟩ := getNextFreeDeviceId_shape
        (tick (emit s (.createSnapDevice (getPoolDevName s) id0 baseName baseId)))
      cases hg1 : (getNextFreeDeviceId
          (tick (emit s (.createSnapDevice (getPoolDevName s) id0 baseName baseId)))).1 with
      | none =>
        refine ⟨?_, ?_⟩ <;> simp only [hg1] <;> rw [hg] <;> rfl
      | some newId =>
        simp only [hg1]
        obtain ⟨f, hf⟩ := refreshTransaction_shape env newId
          (getNextFreeDeviceId
            (tick (emit s (.createSnapDevice (getPoolDevName s) id0 baseName baseId)))).2
        have hi := ih newId
          ((refreshTransaction env newId
            (getNextFreeDeviceId
              (tick (emit s (.createSnapDevice (getPoolDevName s) id0 baseName baseId)))).2).2)
        constructor
        · rw [hi.1, hf, hg]
          rfl
        · rw [hi.2, hf, hg]
          rfl

theorem registerDevice_ok_char (env : Env) (deviceId : Nat) (hash : String) (size txid : Nat)
    (s : DeviceSet) (info : DevInfo)
    (h : (registerDevice env deviceId hash size txid s).1 = .ok info) :
    info = ⟨hash, deviceId, size, txid, false, 0, ""⟩ ∧
    (registerDevice env deviceId hash size txid s).2.Devices hash = some info := by
  unfold registerDevice at h ⊢
  dsimp only at h ⊢
  split at h
  next heq =>
    rw [Except.ok.injEq] at h
    subst h
    refine ⟨rfl, ?_⟩
    simp only [heq]
    obtain ⟨f, hf⟩ := saveMetadata_shape env _ _
    rw [hf]
    simp
  next e heq =>
    exact absurd h (by simp)

theorem createRegisterDevice_ok_tx (env : Env) (fuel : Nat) (hash : String) (s : DeviceSet)
    (info : DevInfo) (h : (createRegisterDevice env fuel hash s).1 = .ok info) :
    (createRegisterDevice env fuel hash s).2.2.TransactionId = u64Mod (s.TransactionId + 1) ∧
    info.TransactionId = (createRegisterDevice env fuel hash s).2.2.TransactionId ∧
    (createRegisterDevice env fuel hash s).2.2.Devices hash = some info := by
  unfold createRegisterDevice at h ⊢
  dsimp only at h ⊢
  obtain ⟨mg, cg, hgs⟩ := getNextFreeDeviceId_shape s
  cases hg : (getNextFreeDeviceId s).1 with
  | none => simp [hg] at h
  | some deviceId =>
    simp only [hg] at h ⊢
    obtain ⟨fo, hos⟩ := openTransaction_shape env hash deviceId (getNextFreeDeviceId s).2
    cases ho : (openTransaction env hash deviceId (getNextFreeDeviceId s).2).1 with
    | error e => simp [ho] at h
    | ok _ =>
      simp only [ho] at h ⊢
      have hltx := createDeviceLoop_tx env fuel deviceId
        (openTransaction env hash deviceId (getNextFreeDeviceId s).2).2
      cases hl : (createDeviceLoop env fuel deviceId
          (openTransaction env hash deviceId (getNextFreeDeviceId s).2).2).1 with
      | error e => simp [hl] at h
      | ok _ =>
        simp only [hl] at h ⊢
        obtain ⟨Dr, fr, hrs⟩ := registerDevice_shape env
          (createDeviceLoop env fuel deviceId
            (openTransaction env hash deviceId (getNextFreeDeviceId s).2).2).2.1 hash
          (createDeviceLoop env fuel deviceId
            (openTransaction env hash deviceId (getNextFreeDeviceId s).2).2).2.2.baseFsSize
          (createDeviceLoop env fuel deviceId
            (openTransaction env hash deviceId (getNextFreeDeviceId s).2).2).2.2.OpenTransactionId
          (createDeviceLoop env fuel deviceId
            (openTransaction env hash deviceId (getNextFreeDeviceId s).2).2).2.2
        cases hr : (registerDevice env
            (createDeviceLoop env fuel deviceId
              (openTransaction env hash deviceId (getNextFreeDeviceId s).2).2).2.1 hash
            (createDeviceLoop env fuel deviceId
              (openTransaction env hash deviceId (getNextFreeDeviceId s).2).2).2.2.baseFsSize
            (createDeviceLoop env fuel deviceId
              (openTransaction env hash deviceId (getNextFreeDeviceId s).2).2).2.2.OpenTransactionId
            (createDeviceLoop env fuel deviceId
              (openTransaction env hash deviceId (getNextFreeDeviceId s).2).2).2.2).1 with
        | error e => simp [hr] at h
        | ok info2 =>
          simp only [hr] at h ⊢
          obtain ⟨hinfo2, hdev2⟩ := registerDevice_ok_char env _ hash _ _ _ info2 hr
          obtain ⟨Tc, hcs⟩ := closeTransaction_shape env
            (registerDevice env
              (createDeviceLoop env fuel deviceId
                (openTransaction env hash deviceId (getNextFreeDeviceId s).2).2).2.1 hash
              (createDeviceLoop env fuel deviceId
                (openTransaction env hash deviceId (getNextFreeDeviceId s).2).2).2.2.baseFsSize
              (createDeviceLoop env fuel deviceId
                (openTransaction env hash deviceId
                  (getNextFreeDeviceId s).2).2).2.2.OpenTransactionId
              (createDeviceLoop env fuel deviceId
                (openTransaction env hash deviceId (getNextFreeDeviceId s).2).2).2.2).2
          cases hc : (closeTransaction env
              (registerDevice env
                (createDeviceLoop env fuel deviceId
                  (openTransaction env hash deviceId (getNextFreeDeviceId s).2).2).2.1 hash
                (createDeviceLoop env fuel deviceId
                  (openTransaction env hash deviceId (getNextFreeDeviceId s).2).2).2.2.baseFsSize
                (createDeviceLoop env fuel deviceId
                  (openTransaction env hash deviceId
                    (getNextFreeDeviceId s).2).2).2.2.OpenTransactionId
                (createDeviceLoop env fuel deviceId
                  (openTransaction env hash deviceId (getNextFreeDeviceId s).2).2).2.2).2).1 with
          | error e => simp [hc] at h
          | ok _ =>
            simp only [hc] at h ⊢
            rw [Except.ok.injEq] at h
            subst h
            have hTxOpen : (registerDevice env
                (createDeviceLoop env fuel deviceId
                  (openTransaction env hash deviceId (getNextFreeDeviceId s).2).2).2.1 hash
                (createDeviceLoop env fuel deviceId
                  (openTransaction env hash deviceId (getNextFreeDeviceId s).2).2).2.2.baseFsSize
                (createDeviceLoop env fuel deviceId
                  (openTransaction env hash deviceId
                    (getNextFreeDeviceId s).2).2).2.2.OpenTransactionId
                (createDeviceLoop env fuel deviceId
                  (openTransaction env hash deviceId
                    (getNextFreeDeviceId s).2).2).2.2).2.OpenTransactionId
                = u64Mod (s.TransactionId + 1) := by
              rw [hrs]
              show (createDeviceLoop env fuel deviceId
                (openTransaction env hash deviceId
                  (getNextFreeDeviceId s).2).2).2.2.OpenTransactionId = u64Mod (s.TransactionId + 1)
              rw [hltx.2, hos]
              show u64Mod ((getNextFreeDeviceId s).2.TransactionId + 1) = u64Mod (s.TransactionId + 1)
              rw [hgs]
            have hTxFinal : (closeTransaction env
                (registerDevice env
                  (createDeviceLoop env fuel deviceId
                    (openTransaction env hash deviceId (getNextFreeDeviceId s).2).2).2.1 hash
                  (createDeviceLoop env fuel deviceId
                    (openTransaction env hash deviceId
                      (getNextFreeDeviceId s).2).2).2.2.baseFsSize
                  (createDeviceLoop env fuel deviceId
                    (openTransaction env hash deviceId
                      (getNextFreeDeviceId s).2).2).2.2.OpenTransactionId
                  (createDeviceLoop env fuel deviceId
                    (openTransaction env hash deviceId
                      (getNextFreeDeviceId s).2).2).2.2).2).2.TransactionId
                = u64Mod (s.TransactionId + 1) := by
              rw [closeTransaction_ok_char env _ hc]
              exact hTxOpen
            have hInfoTx : info2.TransactionId = u64Mod (s.TransactionId + 1) := by
              rw [hinfo2]
              show (createDeviceLoop env fuel deviceId
                  (openTransaction env hash deviceId
                    (getNextFreeDeviceId s).2).2).2.2.OpenTransactionId
                = _
              rw [hltx.2, hos]
              show u64Mod ((getNextFreeDeviceId s).2.TransactionId + 1) = _
              rw [hgs]
            refine ⟨hTxFinal, ?_, ?_⟩
            · rw [hInfoTx]
              exact hTxFinal.symm
            · rw [hcs]
              show (registerDevice env _ hash _ _ _).2.Devices hash = some info2
              exact hdev2

theorem createRegisterSnapDevice_ok_tx (env : Env) (fuel : Nat) (hash : String)
    (baseInfo : DevInfo) (s : DeviceSet)
    (h : (createRegisterSnapDevice env fuel hash baseInfo s).1 = .ok ()) :
    (createRegisterSnapDevice env fuel hash baseInfo s).2.2.TransactionId
      = u64Mod (s.TransactionId + 1) ∧
    ∃ i, (createRegisterSnapDevice env fuel hash baseInfo s).2.2.Devices hash = some i ∧
      i.TransactionId = (createRegisterSnapDevice env fuel hash baseInfo s).2.2.TransactionId := by
  unfold createRegisterSnapDevice at h ⊢
  dsimp only at h ⊢
  obtain ⟨mg, cg, hgs⟩ := getNextFreeDeviceId_shape s
  cases hg : (getNextFreeDeviceId s).1 with
  | none => simp [hg] at h
  | some deviceId =>
    simp only [hg] at h ⊢
    obtain ⟨fo, hos⟩ := openTransaction_shape env hash deviceId (getNextFreeDeviceId s).2
    cases ho : (openTransaction env hash deviceId (getNextFreeDeviceId s).2).1 with
    | error e => simp [ho] at h
    | ok _ =>
      simp only [ho] at h ⊢
      have hltx := createSnapDeviceLoop_tx env
        (infoName (openTransaction env hash deviceId (getNextFreeDeviceId s).2).2 baseInfo)
        baseInfo.DeviceId fuel deviceId
        (openTransaction env hash deviceId (getNextFreeDeviceId s).2).2
      cases hl : (createSnapDeviceLoop env
          (infoName (openTransaction env hash deviceId (getNextFreeDeviceId s).2).2 baseInfo)
          baseInfo.DeviceId fuel deviceId
          (openTransaction env hash deviceId (getNextFreeDeviceId s).2).2).1 with
      | error e => simp [hl] at h
      | ok _ =>
        simp only [hl] at h ⊢
        cases hr : (registerDevice env
            (createSnapDeviceLoop env
              (infoName (openTransaction env hash deviceId (getNextFreeDeviceId s).2).2 baseInfo)
              baseInfo.DeviceId fuel deviceId
              (openTransaction env hash deviceId (getNextFreeDeviceId s).2).2).2.1 hash
            baseInfo.Size
            (createSnapDeviceLoop env
              (infoName (openTransaction env hash deviceId (getNextFreeDeviceId s).2).2 baseInfo)
              baseInfo.DeviceId fuel deviceId
              (openTransaction env hash deviceId
                (getNextFreeDeviceId s).2).2).2.2.OpenTransactionId
            (createSnapDeviceLoop env
              (infoName (openTransaction env hash deviceId (getNextFreeDeviceId s).2).2 baseInfo)
              baseInfo.DeviceId fuel deviceId
              (openTransaction env hash deviceId (getNextFreeDeviceId s).2).2).2.2).1 with
        | error e => simp [hr] at h
        | ok info2 =>
          simp only [hr] at h ⊢
          obtain ⟨hinfo2, hdev2⟩ := registerDevice_ok_char env _ hash _ _ _ info2 hr
          obtain ⟨Tc, hcs⟩ := closeTransaction_shape env
            (registerDevice env
              (createSnapDeviceLoop env
                (infoName (openTransaction env hash deviceId (getNextFreeDeviceId s).2).2 baseInfo)
                baseInfo.DeviceId fuel deviceId
                (openTransaction env hash deviceId (getNextFreeDeviceId s).2).2).2.1 hash
              baseInfo.Size
              (createSnapDeviceLoop env
                (infoName (openTransaction env hash deviceId (getNextFreeDeviceId s).2).2 baseInfo)
                baseInfo.DeviceId fuel deviceId
                (openTransaction env hash deviceId
                  (getNextFreeDeviceId s).2).2).2.2.OpenTransactionId
              (createSnapDeviceLoop env
                (infoName (openTransaction env hash deviceId (getNextFreeDeviceId s).2).2 baseInfo)
                baseInfo.DeviceId fuel deviceId
                (openTransaction env hash deviceId (getNextFreeDeviceId s).2).2).2.2).2
          cases hc : (closeTransaction env
              (registerDevice env
                (createSnapDeviceLoop env
                  (infoName (openTransaction env hash deviceId (getNextFreeDeviceId s).2).2 baseInfo)
                  baseInfo.DeviceId fuel deviceId
                  (openTransaction env hash deviceId (getNextFreeDeviceId s).2).2).2.1 hash
                baseInfo.Size
                (createSnapDeviceLoop env
                  (infoName (openTransaction env hash deviceId (getNextFreeDeviceId s).2).2 baseInfo)
                  baseInfo.DeviceId fuel deviceId
                  (openTransaction env hash deviceId
                    (getNextFreeDeviceId s).2).2).2.2.OpenTransactionId
                (createSnapDeviceLoop env
                  (infoName (openTransaction env hash deviceId (getNextFreeDeviceId s).2).2 baseInfo)
                  baseInfo.DeviceId fuel deviceId
                  (openTransaction env hash deviceId (getNextFreeDeviceId s).2).2).2.2).2).1 with
          | error e => simp [hc] at h
          | ok _ =>
            simp only [hc] at h ⊢
            have hTxOpen : (registerDevice env
                (createSnapDeviceLoop env
                  (infoName (openTransaction env hash deviceId (getNextFreeDeviceId s).2).2 baseInfo)
                  baseInfo.DeviceId fuel deviceId
                  (openTransaction env hash deviceId (getNextFreeDeviceId s).2).2).2.1 hash
                baseInfo.Size
                (createSnapDeviceLoop env
                  (infoName (openTransaction env hash deviceId (getNextFreeDeviceId s).2).2 baseInfo)
                  baseInfo.DeviceId fuel deviceId
                  (openTransaction env hash deviceId
                    (getNextFreeDeviceId s).2).2).2.2.OpenTransactionId
                (createSnapDeviceLoop env
                  (infoName (openTransaction env hash deviceId (getNextFreeDeviceId s).2).2 baseInfo)
                  baseInfo.DeviceId fuel deviceId
                  (openTransaction env hash deviceId
                    (getNextFreeDeviceId s).2).2).2.2).2.OpenTransactionId
                = u64Mod (s.TransactionId + 1) := by
              obtain ⟨Dr, fr, hrs⟩ := registerDevice_shape env
                (createSnapDeviceLoop env
                  (infoName (openTransaction env hash deviceId (getNextFreeDeviceId s).2).2 baseInfo)
                  baseInfo.DeviceId fuel deviceId
                  (openTransaction env hash deviceId (getNextFreeDeviceId s).2).2).2.1 hash
                baseInfo.Size
                (createSnapDeviceLoop env
                  (infoName (openTransaction env hash deviceId (getNextFreeDeviceId s).2).2 baseInfo)
                  baseInfo.DeviceId fuel deviceId
                  (openTransaction env hash deviceId
                    (getNextFreeDeviceId s).2).2).2.2.OpenTransactionId
                (createSnapDeviceLoop env
                  (infoName (openTransaction env hash deviceId (getNextFreeDeviceId s).2).2 baseInfo)
                  baseInfo.DeviceId fuel deviceId
                  (openTransaction env hash deviceId (getNextFreeDeviceId s).2).2).2.2
              rw [hrs]
              show (createSnapDeviceLoop env
                  (infoName (openTransaction env hash deviceId (getNextFreeDeviceId s).2).2 baseInfo)
                  baseInfo.DeviceId fuel deviceId
                  (openTransaction env hash deviceId
                    (getNextFreeDeviceId s).2).2).2.2.OpenTransactionId
                = u64Mod (s.TransactionId + 1)
              rw [hltx.2, hos]
              show u64Mod ((getNextFreeDeviceId s).2.TransactionId + 1)
                = u64Mod (s.TransactionId + 1)
              rw [hgs]
            have hTxFinal : (closeTransaction env
                (registerDevice env
                  (createSnapDeviceLoop env
                    (infoName (openTransaction env hash deviceId
                      (getNextFreeDeviceId s).2).2 baseInfo)
                    baseInfo.DeviceId fuel deviceId
                    (openTransaction env hash deviceId (getNextFreeDeviceId s).2).2).2.1 hash
                  baseInfo.Size
                  (createSnapDeviceLoop env
                    (infoName (openTransaction env hash deviceId
                      (getNextFreeDeviceId s).2).2 baseInfo)
                    baseInfo.DeviceId fuel deviceId
                    (openTransaction env hash deviceId
                      (getNextFreeDeviceId s).2).2).2.2.OpenTransactionId
                  (createSnapDeviceLoop env
                    (infoName (openTransaction env hash deviceId
                      (getNextFreeDeviceId s).2).2 baseInfo)
                    baseInfo.DeviceId fuel deviceId
                    (openTransaction env hash deviceId
                      (getNextFreeDeviceId s).2).2).2.2).2).2.TransactionId
                = u64Mod (s.TransactionId + 1) := by
              rw [closeTransaction_ok_char env _ hc]
              exact hTxOpen
            have hInfoTx : info2.TransactionId = u64Mod (s.TransactionId + 1) := by
              rw [hinfo2]
              show (createSnapDeviceLoop env
                  (infoName (openTransaction env hash deviceId (getNextFreeDeviceId s).2).2 baseInfo)
                  baseInfo.DeviceId fuel deviceId
                  (openTransaction env hash deviceId
                    (getNextFreeDeviceId s).2).2).2.2.OpenTransactionId
                = _
              rw [hltx.2, hos]
              show u64Mod ((getNextFreeDeviceId s).2.TransactionId + 1) = _
              rw [hgs]
            refine ⟨hTxFinal, info2, ?_, ?_⟩
            · rw [hcs]
              show (registerDevice env _ hash _ _ _).2.Devices hash = some info2
              exact hdev2
            · rw [hInfoTx]
              exact hTxFinal.symm

theorem activateDeviceIfNeeded_shape (env : Env) (info : DevInfo) (s : DeviceSet) :
    ∃ tr st, (activateDeviceIfNeeded env info s).2 = { s with trace := tr, step := st } := by
  unfold activateDeviceIfNeeded dmActivateDevice
  dsimp only
  cases hgi : env.getInfoRes s.step with
  | none =>
    simp only [hgi]
    by_cases hb : env.boolRes (tick s).step <;>
      simp only [hb, if_true, if_false, Bool.false_eq_true] <;> exact ⟨_, _, rfl⟩
  | some b =>
    cases b with
    | true =>
      simp only [hgi]
      exact ⟨_, _, rfl⟩
    | false =>
      simp only [hgi]
      by_cases hb : env.boolRes (tick s).step <;>
        simp only [hb, if_true, if_false, Bool.false_eq_true] <;> exact ⟨_, _, rfl⟩

theorem deleteDeviceCore_ok_tx (env : Env) (info : DevInfo) (s : DeviceSet)
    (h : (deleteDeviceCore env info s).1 = .ok ()) :
    (deleteDeviceCore env info s).2.TransactionId = u64Mod (s.TransactionId + 1) := by
  unfold deleteDeviceCore at h ⊢
  dsimp only [dmDeleteDevice] at h ⊢
  obtain ⟨fo, hos⟩ := openTransaction_shape env info.Hash info.DeviceId s
  cases ho : (openTransaction env info.Hash info.DeviceId s).1 with
  | error e => simp [ho] at h
  | ok _ =>
    simp only [ho] at h ⊢
    by_cases hb : env.boolRes (openTransaction env info.Hash info.DeviceId s).2.step
    · simp only [hb, Bool.not_true, Bool.false_eq_true, if_false] at h ⊢
      obtain ⟨Du, fu, hus⟩ := unregisterDevice_shape env info.Hash
        (tick (emit (openTransaction env info.Hash info.DeviceId s).2
          (.deleteDevice (getPoolDevName (openTransaction env info.Hash info.DeviceId s).2)
            info.DeviceId)))
      cases hu : (unregisterDevice env info.Hash
          (tick (emit (openTransaction env info.Hash info.DeviceId s).2
            (.deleteDevice (getPoolDevName (openTransaction env info.Hash info.DeviceId s).2)
              info.DeviceId)))).1 with
      | error e => simp [hu] at h
      | ok _ =>
        simp only [hu] at h ⊢
        cases hc : (closeTransaction env
            (unregisterDevice env info.Hash
              (tick (emit (openTransaction env info.Hash info.DeviceId s).2
                (.deleteDevice (getPoolDevName (openTransaction env info.Hash info.DeviceId s).2)
                  info.DeviceId)))).2).1 with
        | error e => simp [hc] at h
        | ok _ =>
          simp only [hc] at h ⊢
          show (markDeviceIdFree (closeTransaction env
              (unregisterDevice env info.Hash
                (tick (emit (openTransaction env info.Hash info.DeviceId s).2
                  (.deleteDevice
                    (getPoolDevName (openTransaction env info.Hash info.DeviceId s).2)
                    info.DeviceId)))).2).2 info.DeviceId).TransactionId
            = u64Mod (s.TransactionId + 1)
          have h1 := closeTransaction_ok_char env
            (unregisterDevice env info.Hash
              (tick (emit (openTransaction env info.Hash info.DeviceId s).2
                (.deleteDevice (getPoolDevName (openTransaction env info.Hash info.DeviceId s).2)
                  info.DeviceId)))).2 hc
          show (closeTransaction env
              (unregisterDevice env info.Hash
                (tick (emit (openTransaction env info.Hash info.DeviceId s).2
                  (.deleteDevice
                    (getPoolDevName (openTransaction env info.Hash info.DeviceId s).2)
                    info.DeviceId)))).2).2.TransactionId
            = u64Mod (s.TransactionId + 1)
          rw [h1, hus]
          show (openTransaction env info.Hash info.DeviceId s).2.OpenTransactionId
            = u64Mod (s.TransactionId + 1)
          rw [hos]
    · simp only [hb, Bool.not_false, if_true] at h
      cases h

theorem deleteDevice_ok_tx (env : Env) (info : DevInfo) (s : DeviceSet)
    (h : (deleteDevice env info s).1 = .ok ()) :
    (deleteDevice env info s).2.TransactionId = u64Mod (s.TransactionId + 1) := by
  unfold deleteDevice at h ⊢
  dsimp only at h ⊢
  have hA : ∃ tr st,
      (if s.doBlkDiscard then
        match (activateDeviceIfNeeded env info s).1 with
        | .ok _ => (blockDeviceDiscard env
            (devNameOf (activateDeviceIfNeeded env info s).2 info)
            (activateDeviceIfNeeded env info s).2).2
        | .error _ => (activateDeviceIfNeeded env info s).2
      else s) = { s with trace := tr, step := st } := by
    by_cases hdo : s.doBlkDiscard
    · rw [if_pos hdo]
      obtain ⟨tr, st, has⟩ := activateDeviceIfNeeded_shape env info s
      cases hact : (activateDeviceIfNeeded env info s).1 with
      | ok _ =>
        refine ⟨tr ++ [Event.blockDiscard (devNameOf (activateDeviceIfNeeded env info s).2 info)],
          st + 1, ?_⟩
        show (blockDeviceDiscard env (devNameOf (activateDeviceIfNeeded env info s).2 info)
          (activateDeviceIfNeeded env info s).2).2 = _
        unfold blockDeviceDiscard
        dsimp only
        rw [has]
        rfl
      | error e =>
        exact ⟨tr, st, has⟩
    · rw [if_neg hdo]
      exact ⟨s.trace, s.step, rfl⟩
  obtain ⟨tr, st, hAs⟩ := hA
  rw [hAs] at h ⊢
  cases hgi : env.getInfoRes ({ s with trace := tr, step := st } : DeviceSet).step with
  | none =>
    simp only [hgi] at h ⊢
    have := deleteDeviceCore_ok_tx env info (tick { s with trace := tr, step := st }) h
    rw [this]
    rfl
  | some b =>
    cases b with
    | false =>
      simp only [hgi] at h ⊢
      have := deleteDeviceCore_ok_tx env info (tick { s with trace := tr, step := st }) h
      rw [this]
      rfl
    | true =>
      simp only [hgi] at h ⊢
      dsimp only [removeDeviceAndWaitCall] at h ⊢
      by_cases hb : env.boolRes (tick { s with trace := tr, step := st } : DeviceSet).step
      · simp only [hb, Bool.not_true, Bool.false_eq_true, if_false] at h ⊢
        have := deleteDeviceCore_ok_tx env info
          (tick (emit (tick { s with trace := tr, step := st })
            (.removeDevice (infoName { s with trace := tr, step := st } info)))) h
        rw [this]
        rfl
      · simp only [hb, Bool.not_false, if_true] at h
        cases h

/-- C2 — Transaction monotonicity: after a successful
`createRegisterDevice`, `createRegisterSnapDevice` or `deleteDevice`,
the pool `TransactionId` is exactly one greater than before the call
(below the `uint64` wrap); for creates the newly registered record's
`TransactionId` equals the new value; and `closeTransaction` never
touches the filesystem — commit only advances the pool transaction
id, it does not delete the pending-transaction file. -/
theorem c2_transaction_monotonicity (env : Env) (fuel : Nat) (hash : String)
    (baseInfo dinfo : DevInfo) (s : DeviceSet)
    (hTx : s.TransactionId + 1 < 18446744073709551616) :
    (∀ info, (createRegisterDevice env fuel hash s).1 = .ok info →
      (createRegisterDevice env fuel hash s).2.2.TransactionId = s.TransactionId + 1 ∧
      info.TransactionId = (createRegisterDevice env fuel hash s).2.2.TransactionId ∧
      (createRegisterDevice env fuel hash s).2.2.Devices hash = some info)
    ∧ ((createRegisterSnapDevice env fuel hash baseInfo s).1 = .ok () →
      (createRegisterSnapDevice env fuel hash baseInfo s).2.2.TransactionId
        = s.TransactionId + 1 ∧
      ∃ i, (createRegisterSnapDevice env fuel hash baseInfo s).2.2.Devices hash = some i ∧
        i.TransactionId = (createRegisterSnapDevice env fuel hash baseInfo s).2.2.TransactionId)
    ∧ ((deleteDevice env dinfo s).1 = .ok () →
      (deleteDevice env dinfo s).2.TransactionId = s.TransactionId + 1)
    ∧ ((closeTransaction env s).2.fs = s.fs
      ∧ ((closeTransaction env s).1 = .ok () →
        (closeTransaction env s).2.TransactionId = s.OpenTransactionId)) := by
  have hmod : u64Mod (s.TransactionId + 1) = s.TransactionId + 1 := Nat.mod_eq_of_lt hTx
  refine ⟨?_, ?_, ?_, closeTransaction_fs env s,
    fun hcl => closeTransaction_ok_char env s hcl⟩
  · intro info h
    obtain ⟨h1, h2, h3⟩ := createRegisterDevice_ok_tx env fuel hash s info h
    exact ⟨by rw [h1, hmod], h2, h3⟩
  · intro h
    obtain ⟨h1, h2⟩ := createRegisterSnapDevice_ok_tx env fuel hash baseInfo s h
    refine ⟨by rw [h1, hmod], ?_⟩
    rw [h1, hmod] at h2 ⊢
    exact h2
  · intro h
    rw [deleteDevice_ok_tx env dinfo s h, hmod]

/-- Witness for C2: creating the first device on a fresh state moves
the pool transaction id from 0 to 1, which the new record carries. -/
theorem c2_transaction_monotonicity_witness :
    s0.TransactionId + 1 < 18446744073709551616 ∧
    (createRegisterDevice env0 2 "A" s0).2.2.TransactionId = s0.TransactionId + 1 := by
  have h := (c2_transaction_monotonicity env0 2 "A" ⟨"b", 1, 7, 1, true, 0, ""⟩
    ⟨"d", 2, 7, 1, true, 0, ""⟩ s0 (by decide)).1
  exact ⟨by decide, (h ⟨"A", 1, 10737418240, 1, false, 0, ""⟩ (by rfl)).1⟩

/-! ### C6: mount conflict -/

/-- C6 — When the device is mounted (`mountCount > 0`): a different
path fails with the mounted-elsewhere error and the state is returned
entirely unchanged (no kernel operation, no counter change); the same
path succeeds, only bumping the record's `mountCount` (again no kernel
operation — the trace, filesystem and every other field are those of
`setDevice`, which touches only the registry entry). -/
theorem c6_mount_conflict (env : Env) (hash p mountLabel : String) (info : DevInfo)
    (s : DeviceSet) (h0 : s.Devices hash = some info) (hc : 0 < info.mountCount) :
    (p ≠ info.mountPath →
      MountDevice env hash p mountLabel s
        = (.error (.mountedElsewhere info.mountPath p), s))
    ∧ (p = info.mountPath →
      MountDevice env hash p mountLabel s
        = (.ok (), setDevice s hash { info with mountCount := info.mountCount + 1 })) := by
  unfold MountDevice lookupDevice
  dsimp only
  simp only [h0]
  rw [if_pos hc]
  constructor
  · intro hne
    rw [if_pos hne]
  · intro he
    rw [if_neg (show ¬p ≠ info.mountPath from fun hn => hn he)]

/-- Witness for C6: remounting `A` at `/mnt/y` while it is mounted at
`/mnt/x` fails with the mounted-elsewhere error and leaves the state
untouched. -/
theorem c6_mount_conflict_witness :
    MountDevice env0 "A" "/mnt/y" "" s6
      = (.error (.mountedElsewhere "/mnt/x" "/mnt/y"), s6) :=
  (c6_mount_conflict env0 "A" "/mnt/y" "" infoA s6 rfl (by decide)).1 (by decide)

/-! ### C10: unmount decrements before the kernel unmount -/

/-- C10 — `UnmountDevice` decrements `mountCount` before the kernel
unmount: called with `mountCount = 1`, if the kernel unmount fails, or
the subsequent deactivation fails (`GetInfo` error, or the remove
failing), the error is returned with the registry record already at
`mountCount = 0` and `mountPath` still the old path — the decrement is
not rolled back. -/
theorem c10_unmount_decrements_first (env : Env) (hash : String) (info : DevInfo)
    (s : DeviceSet) (h0 : s.Devices hash = some info) (hc : info.mountCount = 1) :
    (env.boolRes s.step = false →
      (UnmountDevice env hash s).1 = .error .unmountFail ∧
      ∃ i, (UnmountDevice env hash s).2.Devices hash = some i ∧
        i.mountCount = 0 ∧ i.mountPath = info.mountPath)
    ∧ (env.boolRes s.step = true → env.getInfoRes (s.step + 1) = none →
      (UnmountDevice env hash s).1 = .error .getInfoFail ∧
      ∃ i, (UnmountDevice env hash s).2.Devices hash = some i ∧
        i.mountCount = 0 ∧ i.mountPath = info.mountPath)
    ∧ (env.boolRes s.step = true → env.getInfoRes (s.step + 1) = some true →
      env.boolRes (s.step + 2) = false →
      (UnmountDevice env hash s).1 = .error .removeDevFail ∧
      ∃ i, (UnmountDevice env hash s).2.Devices hash = some i ∧
        i.mountCount = 0 ∧ i.mountPath = info.mountPath) := by
  unfold UnmountDevice lookupDevice deactivateDevice sysUnmount removeDeviceAndWaitCall
  dsimp only
  simp only [h0]
  rw [if_neg (show ¬info.mountCount = 0 by omega)]
  rw [if_neg (show ¬(0:Nat) < info.mountCount - 1 by omega)]
  simp only [setDevice, emit, tick]
  refine ⟨?_, ?_, ?_⟩
  · intro hb
    rw [if_pos (show (!env.boolRes s.step) = true by rw [hb]; rfl)]
    exact ⟨by trivial, { info with mountCount := info.mountCount - 1 }, by simp,
      by show info.mountCount - 1 = 0; omega, rfl⟩
  · intro hb hgi
    rw [if_neg (show ¬(!env.boolRes s.step) = true by rw [hb]; decide)]
    simp only [hgi]
    exact ⟨by trivial, { info with mountCount := info.mountCount - 1 }, by simp,
      by show info.mountCount - 1 = 0; omega, rfl⟩
  · intro hb hgi hb2
    rw [if_neg (show ¬(!env.boolRes s.step) = true by rw [hb]; decide)]
    simp only [hgi]
    have hb2x : env.boolRes (s.step + 1 + 1) = false := by
      rw [show s.step + 1 + 1 = s.step + 2 by omega]
      exact hb2
    rw [if_neg (show ¬env.boolRes (s.step + 1 + 1) = true by rw [hb2x]; decide)]
    exact ⟨by trivial, { info with mountCount := info.mountCount - 1 }, by simp,
      by show info.mountCount - 1 = 0; omega, rfl⟩

/-- Witness for C10: unmounting `A` (count 1) when the kernel unmount
fails leaves the record at count 0 with the old path. -/
theorem c10_unmount_decrements_first_witness :
    (UnmountDevice envFail "A" s6).1 = .error .unmountFail ∧
    ∃ i, (UnmountDevice envFail "A" s6).2.Devices "A" = some i ∧
      i.mountCount = 0 ∧ i.mountPath = infoA.mountPath :=
  (c10_unmount_decrements_first envFail "A" infoA s6 rfl (by decide)).1 (by rfl)

/-! ### C1: startup crash-recovery replay -/

/-- C1 — `processPendingTransaction`: when the loaded pending
transaction's `open_transaction_id` is strictly greater than the pool's
`TransactionId`, the rollback attempts the pool-level `DeleteDevice`
for the pending device id (whatever its outcome — `env.boolRes s.step`
is unconstrained), removes the per-device metadata file named by the
pending hash, marks the pending id free in the bitmap, and deletes the
pending-transaction file (the two removals succeeding); when the open
id is less than or equal to the pool id, no rollback happens and only
the in-memory pending-transaction slot is replaced by the loaded
values — filesystem, registry, bitmap and trace are untouched. -/
theorem c1_startup_replay (env : Env) (s : DeviceSet) (bs : List Nat) (t : Transaction)
    (hfile : s.fs (transactionMetaFile s) = some bs)
    (hdec : env.decodeTrans bs = some t) :
    (s.TransactionId < t.OpenTransactionId →
      env.boolRes (s.step + 1) = true → env.boolRes (s.step + 2) = true →
      (processPendingTransaction env s).trace
          = s.trace ++ [Event.deleteDevice (getPoolDevName s) t.DeviceId] ∧
      (processPendingTransaction env s).fs (metadataFile s t.DeviceIdHash) = none ∧
      (processPendingTransaction env s).fs (transactionMetaFile s) = none ∧
      (processPendingTransaction env s).deviceIdMap t.DeviceId = false ∧
      (processPendingTransaction env s).Devices = s.Devices ∧
      (processPendingTransaction env s).OpenTransactionId = s.TransactionId)
    ∧ (t.OpenTransactionId ≤ s.TransactionId →
      processPendingTransaction env s
        = { s with
            OpenTransactionId := t.OpenTransactionId,
            DeviceIdHash := t.DeviceIdHash, DeviceId := t.DeviceId }) := by
  unfold processPendingTransaction loadTransactionMetaData
  dsimp only
  simp only [hfile, hdec]
  constructor
  · intro hgt hb1 hb2
    rw [if_neg (show ¬s.TransactionId = t.OpenTransactionId by omega)]
    rw [if_neg (show ¬t.OpenTransactionId < s.TransactionId by omega)]
    unfold rollbackTransaction removeTransactionMetaData osRemoveAll dmDeleteDevice
      markDeviceIdFree
    simp only [emit, tick]
    rw [if_pos (show env.boolRes (s.step + 1) = true from hb1)]
    dsimp only
    rw [if_pos (show (true : Bool) = true from rfl)]
    dsimp only
    rw [if_pos (show env.boolRes (s.step + 1 + 1) = true by
      rw [show s.step + 1 + 1 = s.step + 2 by omega]; exact hb2)]
    refine ⟨rfl, ?_, ?_, ?_, rfl, rfl⟩
    · show fsSet (fsSet s.fs (metadataFile s t.DeviceIdHash) none)
        (transactionMetaFile s) none (metadataFile s t.DeviceIdHash) = none
      unfold fsSet
      by_cases hpp : metadataFile s t.DeviceIdHash = transactionMetaFile s
      · rw [if_pos hpp]
      · rw [if_neg hpp, if_pos rfl]
    · show fsSet (fsSet s.fs (metadataFile s t.DeviceIdHash) none)
        (transactionMetaFile s) none (transactionMetaFile s) = none
      unfold fsSet
      rw [if_pos rfl]
    · show (if t.DeviceId = bitIndex t.DeviceId then false else s.deviceIdMap t.DeviceId) = false
      simp [bitIndex_eq]
  · intro hle
    by_cases he : s.TransactionId = t.OpenTransactionId
    · rw [if_pos he]
    · rw [if_neg he]
      rw [if_pos (show t.OpenTransactionId < s.TransactionId by omega)]

/-- C1 witness: with a pending transaction (open id 7, hash `B`,
device id 3) on disk and the pool at transaction id 0, startup replay
rolls the transaction back: the pending-transaction file is gone and
id 3 is free in the bitmap. -/
theorem c1_startup_replay_witness :
    sT.TransactionId < 7 ∧
    (processPendingTransaction envT sT).fs (transactionMetaFile sT) = none ∧
    (processPendingTransaction envT sT).deviceIdMap 3 = false := by
  have h := (c1_startup_replay envT sT [1] tT
      (by rfl) (by rfl)).1 (by decide) (by rfl) (by rfl)
  exact ⟨by decide, h.2.2.1, h.2.2.2.1⟩

/-! ### C7: refusing a non-empty external thin-pool -/

/-- C7 — `setupBaseImage`: with an external thin-pool configured, no
cached base record and no base metadata file, the pool status is
queried; non-zero used data blocks abort with an error (checked
first), then a non-zero pool transaction id aborts with an error — in
both cases the state is returned unchanged except for the oracle step
counter, so no device is created; when both are zero the function
proceeds exactly as the base-creation tail. -/
theorem c7_external_pool_refusal (env : Env) (fuel : Nat) (s : DeviceSet)
    (ps : PoolStatus)
    (hpool : s.thinPoolDevice ≠ "")
    (hdev : s.Devices "" = none)
    (hfs : s.fs (metadataFile s "") = none)
    (hst : env.poolStatus s.step = some ps) :
    (ps.dataUsed ≠ 0 →
      (setupBaseImage env fuel s).1 = .error .usedDataBlocks ∧
      (setupBaseImage env fuel s).2 = tick s) ∧
    (ps.dataUsed = 0 → ps.transactionId ≠ 0 →
      (setupBaseImage env fuel s).1 = .error .nonzeroTransId ∧
      (setupBaseImage env fuel s).2 = tick s) ∧
    (ps.dataUsed = 0 → ps.transactionId = 0 →
      setupBaseImage env fuel s = setupBaseImageCreate env fuel (tick s)) := by
  unfold setupBaseImage lookupDevice
  simp only [hdev, hfs]
  rw [if_pos hpool]
  simp only [hst]
  refine ⟨?_, ?_, ?_⟩
  · intro hdu
    rw [if_pos hdu]
    exact ⟨rfl, rfl⟩
  · intro hdu htr
    rw [if_neg (show ¬ps.dataUsed ≠ 0 by omega)]
    rw [if_pos htr]
    exact ⟨rfl, rfl⟩
  · intro h1 h2
    rw [if_neg (show ¬ps.dataUsed ≠ 0 by omega)]
    rw [if_neg (show ¬ps.transactionId ≠ 0 by omega)]

/-- C7 witness: an all-zero external pool is adopted — `setupBaseImage`
falls through to base-device creation. -/
theorem c7_external_pool_refusal_witness :
    sP.thinPoolDevice ≠ "" ∧
    setupBaseImage env0 4 sP = setupBaseImageCreate env0 4 (tick sP) :=
  ⟨by decide,
   (c7_external_pool_refusal env0 4 sP ⟨0, 0, 0, 0, 0, 0⟩
     (by decide) rfl rfl rfl).2.2 rfl rfl⟩

/-! ### C8: the dm.blkdiscard default -/

/-- A single option whose key is not `dm.blkdiscard` neither touches
`doBlkDiscard` nor sets the `foundBlkDiscard` flag. -/
theorem applyOption_other_key (env : Env) (cfg : Config) (found : Bool)
    (kv : String × String) (c1 : Config) (f1 : Bool)
    (hk : strToLower kv.1 ≠ "dm.blkdiscard")
    (h : applyOption env cfg found kv = some (c1, f1)) :
    c1.doBlkDiscard = cfg.doBlkDiscard ∧ f1 = found := by
  unfold applyOption at h
  dsimp only at h
  by_cases h1 : strToLower kv.1 = "dm.basesize"
  · rw [if_pos h1] at h
    cases hr : env.ramInBytes kv.2 with
    | none => rw [hr] at h; cases h
    | some size => rw [hr] at h; dsimp only at h; cases h; exact ⟨rfl, rfl⟩
  rw [if_neg h1] at h
  by_cases h2 : strToLower kv.1 = "dm.loopdatasize"
  · rw [if_pos h2] at h
    cases hr : env.ramInBytes kv.2 with
    | none => rw [hr] at h; cases h
    | some size => rw [hr] at h; dsimp only at h; cases h; exact ⟨rfl, rfl⟩
  rw [if_neg h2] at h
  by_cases h3 : strToLower kv.1 = "dm.loopmetadatasize"
  · rw [if_pos h3] at h
    cases hr : env.ramInBytes kv.2 with
    | none => rw [hr] at h; cases h
    | some size => rw [hr] at h; dsimp only at h; cases h; exact ⟨rfl, rfl⟩
  rw [if_neg h3] at h
  by_cases h4 : strToLower kv.1 = "dm.fs"
  · rw [if_pos h4] at h
    by_cases h4a : kv.2 ≠ "ext4" ∧ kv.2 ≠ "xfs"
    · rw [if_pos h4a] at h; cases h
    · rw [if_neg h4a] at h; cases h; exact ⟨rfl, rfl⟩
  rw [if_neg h4] at h
  by_cases h5 : strToLower kv.1 = "dm.mkfsarg"
  · rw [if_pos h5] at h; cases h; exact ⟨rfl, rfl⟩
  rw [if_neg h5] at h
  by_cases h6 : strToLower kv.1 = "dm.mountopt"
  · rw [if_pos h6] at h; cases h; exact ⟨rfl, rfl⟩
  rw [if_neg h6] at h
  by_cases h7 : strToLower kv.1 = "dm.metadatadev"
  · rw [if_pos h7] at h; cases h; exact ⟨rfl, rfl⟩
  rw [if_neg h7] at h
  by_cases h8 : strToLower kv.1 = "dm.datadev"
  · rw [if_pos h8] at h; cases h; exact ⟨rfl, rfl⟩
  rw [if_neg h8] at h
  by_cases h9 : strToLower kv.1 = "dm.thinpooldev"
  · rw [if_pos h9] at h; cases h; exact ⟨rfl, rfl⟩
  rw [if_neg h9] at h
  rw [if_neg hk] at h
  by_cases h11 : strToLower kv.1 = "dm.blocksize"
  · rw [if_pos h11] at h
    cases hr : env.ramInBytes kv.2 with
    | none => rw [hr] at h; cases h
    | some size => rw [hr] at h; dsimp only at h; cases h; exact ⟨rfl, rfl⟩
  rw [if_neg h11] at h
  cases h

/-- One step of the option fold. -/
theorem parseOptionsLoop_cons (env : Env) (kv : String × String)
    (rest : List (String × String)) (cfg : Config) (found : Bool) :
    parseOptionsLoop env (kv :: rest) cfg found =
      match applyOption env cfg found kv with
      | none => none
      | some cf => parseOptionsLoop env rest cf.1 cf.2 := by
  simp only [parseOptionsLoop]
  cases ha : applyOption env cfg found kv with
  | none => rfl
  | some cf => cases cf; rfl

/-- The option fold over a list free of `dm.blkdiscard` keys keeps
`doBlkDiscard` and the `foundBlkDiscard` flag. -/
theorem parseOptionsLoop_other_keys (env : Env) :
    ∀ (opts : List (String × String)) (cfg : Config) (found : Bool)
      (c1 : Config) (f1 : Bool),
      (∀ kv ∈ opts, strToLower kv.1 ≠ "dm.blkdiscard") →
      parseOptionsLoop env opts cfg found = some (c1, f1) →
      c1.doBlkDiscard = cfg.doBlkDiscard ∧ f1 = found
  | [], cfg, found, c1, f1, _, h => by
      unfold parseOptionsLoop at h
      injection h with h1
      rw [Prod.mk.injEq] at h1
      exact ⟨by rw [← h1.1], h1.2.symm⟩
  | kv :: rest, cfg, found, c1, f1, hno, h => by
      unfold parseOptionsLoop at h
      cases ha : applyOption env cfg found kv with
      | none => rw [ha] at h; cases h
      | some cf =>
          rw [ha] at h
          have hkv := applyOption_other_key env cfg found kv cf.1 cf.2
            (hno kv (by simp)) (by rw [ha])
          have ih := parseOptionsLoop_other_keys env rest cf.1 cf.2 c1 f1
            (fun x hx => hno x (by simp [hx])) h
          exact ⟨ih.1.trans hkv.1, ih.2.trans hkv.2⟩

/-- The option fold splits over list append. -/
theorem parseOptionsLoop_append (env : Env) :
    ∀ (l1 l2 : List (String × String)) (cfg : Config) (found : Bool),
      parseOptionsLoop env (l1 ++ l2) cfg found =
        match parseOptionsLoop env l1 cfg found with
        | none => none
        | some cf => parseOptionsLoop env l2 cf.1 cf.2
  | [], l2, cfg, found => by rfl
  | kv :: rest, l2, cfg, found => by
      rw [show ((kv :: rest) ++ l2) = kv :: (rest ++ l2) from rfl]
      rw [parseOptionsLoop_cons, parseOptionsLoop_cons]
      cases ha : applyOption env cfg found kv with
      | none => rfl
      | some cf => exact parseOptionsLoop_append env rest l2 cf.1 cf.2

/-- A `dm.blkdiscard` option applies `parseBool` and raises the found
flag. -/
theorem applyOption_blkdiscard (env : Env) (cfg : Config) (found : Bool)
    (kv : String × String) (b : Bool)
    (hk : strToLower kv.1 = "dm.blkdiscard")
    (hb : parseBool kv.2 = some b) :
    applyOption env cfg found kv = some ({ cfg with doBlkDiscard := b }, true) := by
  unfold applyOption
  dsimp only
  rw [hk]
  rw [if_neg (by decide : ¬("dm.blkdiscard" : String) = "dm.basesize")]
  rw [if_neg (by decide : ¬("dm.blkdiscard" : String) = "dm.loopdatasize")]
  rw [if_neg (by decide : ¬("dm.blkdiscard" : String) = "dm.loopmetadatasize")]
  rw [if_neg (by decide : ¬("dm.blkdiscard" : String) = "dm.fs")]
  rw [if_neg (by decide : ¬("dm.blkdiscard" : String) = "dm.mkfsarg")]
  rw [if_neg (by decide : ¬("dm.blkdiscard" : String) = "dm.mountopt")]
  rw [if_neg (by decide : ¬("dm.blkdiscard" : String) = "dm.metadatadev")]
  rw [if_neg (by decide : ¬("dm.blkdiscard" : String) = "dm.datadev")]
  rw [if_neg (by decide : ¬("dm.blkdiscard" : String) = "dm.thinpooldev")]
  rw [if_pos rfl]
  rw [hb]

/-- C8 — `NewDeviceSet` blkdiscard default: when no `dm.blkdiscard`
option is supplied, the resulting configuration has `doBlkDiscard`
true exactly when neither a raw data device nor an external thin-pool
device is configured (i.e. only for loopback-backed pools); when a
`dm.blkdiscard` option is supplied and no later option repeats the
key, its parsed boolean is kept in the result regardless of the
backing devices. -/
theorem c8_blkdiscard_default (env : Env) (opts pre post : List (String × String))
    (cfg : Config) :
    ((∀ kv ∈ opts, strToLower kv.1 ≠ "dm.blkdiscard") →
      newDeviceSetConfig env opts = some cfg →
      (cfg.doBlkDiscard = true ↔ (cfg.dataDevice = "" ∧ cfg.thinPoolDevice = ""))) ∧
    (∀ (kv : String × String) (b : Bool), strToLower kv.1 = "dm.blkdiscard" →
      parseBool kv.2 = some b →
      (∀ kv2 ∈ post, strToLower kv2.1 ≠ "dm.blkdiscard") →
      newDeviceSetConfig env (pre ++ kv :: post) = some cfg →
      cfg.doBlkDiscard = b) := by
  constructor
  · intro hno hsome
    unfold newDeviceSetConfig at hsome
    cases hp : parseOptionsLoop env opts initialConfig false with
    | none => rw [hp] at hsome; cases hsome
    | some cf =>
        obtain ⟨c, f⟩ := cf
        rw [hp] at hsome
        dsimp only at hsome
        have hcf := parseOptionsLoop_other_keys env opts initialConfig false
          c f hno (by rw [hp])
        by_cases hd : c.dataDevice = "" ∧ c.thinPoolDevice = ""
        · rw [if_neg (by
            intro hc
            rcases hc.2 with h | h
            · exact h hd.1
            · exact h hd.2)] at hsome
          injection hsome with h1
          rw [← h1]
          constructor
          · intro _; exact hd
          · intro _; rw [hcf.1]; rfl
        · rw [if_pos (by
            refine ⟨by rw [hcf.2]; rfl, ?_⟩
            by_cases h1 : c.dataDevice = ""
            · exact Or.inr (fun h2 => hd ⟨h1, h2⟩)
            · exact Or.inl h1)] at hsome
          injection hsome with h1
          rw [← h1]
          constructor
          · intro hfalse; cases hfalse
          · intro hdd
            exact absurd (show c.dataDevice = "" ∧ c.thinPoolDevice = ""
              from hdd) hd
  · intro kv b hkb hpb hpost hsome
    unfold newDeviceSetConfig at hsome
    rw [parseOptionsLoop_append] at hsome
    cases hp : parseOptionsLoop env pre initialConfig false with
    | none => rw [hp] at hsome; cases hsome
    | some cf =>
        rw [hp] at hsome
        dsimp only at hsome
        rw [show parseOptionsLoop env (kv :: post) cf.1 cf.2
              = parseOptionsLoop env post { cf.1 with doBlkDiscard := b } true by
            rw [parseOptionsLoop_cons]
            rw [applyOption_blkdiscard env cf.1 cf.2 kv b hkb hpb]] at hsome
        cases hq : parseOptionsLoop env post { cf.1 with doBlkDiscard := b } true with
        | none => rw [hq] at hsome; cases hsome
        | some cg =>
            obtain ⟨g, gf⟩ := cg
            rw [hq] at hsome
            dsimp only at hsome
            have hcg := parseOptionsLoop_other_keys env post
              { cf.1 with doBlkDiscard := b } true g gf hpost (by rw [hq])
            rw [if_neg (by
              intro hc
              rw [hcg.2] at hc
              exact absurd hc.1 (by decide))] at hsome
            injection hsome with h1
            rw [← h1]
            rw [hcg.1]

/-! ### C5: the mount refcount protocol -/

/-- Re-registering a device twice keeps only the second record. -/
theorem setDevice_collapse (s : DeviceSet) (hash : String) (i1 i2 : DevInfo) :
    setDevice (setDevice s hash i1) hash i2 = setDevice s hash i2 := by
  unfold setDevice
  congr 1
  funext h
  by_cases hh : h = hash
  · simp [hh]
  · simp [hh]

/-- Re-registering the already stored record is the identity. -/
theorem setDevice_self (s : DeviceSet) (hash : String) (info : DevInfo)
    (hdev : s.Devices hash = some info) : setDevice s hash info = s := by
  unfold setDevice
  rw [show (fun h => if h = hash then some info else s.Devices h) = s.Devices by
    funext h
    by_cases hh : h = hash
    · rw [if_pos hh, hh, hdev]
    · rw [if_neg hh]]

/-- The registry after `setDevice` holds the new record. -/
theorem setDevice_Devices_self (s : DeviceSet) (hash : String) (info : DevInfo) :
    (setDevice s hash info).Devices hash = some info := by
  simp [setDevice]

/-- Warm `MountDevice` at the recorded path: a pure increment of the
count, no external call. -/
theorem MountDevice_warm (env : Env) (hash lbl : String) (info : DevInfo)
    (s : DeviceSet) (hdev : s.Devices hash = some info) (hpos : 0 < info.mountCount) :
    MountDevice env hash info.mountPath lbl s
      = (.ok (), setDevice s hash { info with mountCount := info.mountCount + 1 }) := by
  unfold MountDevice lookupDevice
  dsimp only
  simp only [hdev]
  rw [if_pos hpos]
  rw [if_neg (show ¬info.mountPath ≠ info.mountPath from fun hq => hq rfl)]

/-- `n` iterated warm mounts: the count grows by `n`, nothing else
changes. -/
theorem iterMount_warm (env : Env) (hash lbl : String) :
    ∀ (n : Nat) (s : DeviceSet) (info : DevInfo),
      s.Devices hash = some info → 0 < info.mountCount →
      iterMount env hash info.mountPath lbl n s
        = (.ok (), setDevice s hash { info with mountCount := info.mountCount + n })
  | 0, s, info, hdev, _ => by
      show ((Except.ok (), s) : Except DmError Unit × DeviceSet) = _
      rw [setDevice_self s hash { info with mountCount := info.mountCount + 0 } hdev]
  | n + 1, s, info, hdev, hpos => by
      simp only [iterMount]
      rw [MountDevice_warm env hash lbl info s hdev hpos]
      dsimp only
      have ih : iterMount env hash info.mountPath lbl n
          (setDevice s hash { info with mountCount := info.mountCount + 1 })
          = (.ok (), setDevice
              (setDevice s hash { info with mountCount := info.mountCount + 1 }) hash
              { info with mountCount := info.mountCount + 1 + n }) :=
        iterMount_warm env hash lbl n
          (setDevice s hash { info with mountCount := info.mountCount + 1 })
          { info with mountCount := info.mountCount + 1 }
          (setDevice_Devices_self _ _ _)
          (by show 0 < info.mountCount + 1; omega)
      rw [ih, setDevice_collapse]
      rw [show info.mountCount + 1 + n = info.mountCount + (n + 1) from by omega]

/-- Warm `UnmountDevice` while the count stays positive: a pure
decrement, no external call. -/
theorem UnmountDevice_dec (env : Env) (hash : String) (info : DevInfo)
    (s : DeviceSet) (hdev : s.Devices hash = some info) (h2 : 2 ≤ info.mountCount) :
    UnmountDevice env hash s
      = (.ok (), setDevice s hash { info with mountCount := info.mountCount - 1 }) := by
  unfold UnmountDevice lookupDevice
  dsimp only
  simp only [hdev]
  rw [if_neg (show ¬info.mountCount = 0 by omega)]
  rw [if_pos (show (0:Nat) < info.mountCount - 1 by omega)]

/-- The final `UnmountDevice` (count 1, kernel unmount, `GetInfo` and
remove all succeeding): kernel unmount with `MNT_DETACH` at the
recorded path, one deactivation, `mountPath` cleared. -/
theorem UnmountDevice_last (env : Env) (hash : String) (info : DevInfo)
    (s : DeviceSet) (hdev : s.Devices hash = some info) (hc : info.mountCount = 1)
    (hb1 : env.boolRes s.step = true)
    (hgi : env.getInfoRes (s.step + 1) = some true)
    (hb2 : env.boolRes (s.step + 2) = true) :
    (UnmountDevice env hash s).1 = .ok () ∧
    (UnmountDevice env hash s).2.Devices hash
      = some { info with mountCount := info.mountCount - 1, mountPath := "" } ∧
    (UnmountDevice env hash s).2.trace
      = s.trace ++ [Event.unmount info.mountPath mntDetach,
                    Event.deactivate (infoName s info),
                    Event.removeDevice (infoName s info)] ∧
    (UnmountDevice env hash s).2.step = s.step + 3 := by
  unfold UnmountDevice lookupDevice deactivateDevice sysUnmount removeDeviceAndWaitCall
  dsimp only
  simp only [hdev]
  rw [if_neg (show ¬info.mountCount = 0 by omega)]
  rw [if_neg (show ¬(0:Nat) < info.mountCount - 1 by omega)]
  simp only [setDevice, emit, tick]
  rw [if_neg (show ¬(!env.boolRes s.step) = true by rw [hb1]; decide)]
  simp only [hgi]
  rw [if_pos (show env.boolRes (s.step + 1 + 1) = true by
    rw [show s.step + 1 + 1 = s.step + 2 by omega]; exact hb2)]
  refine ⟨rfl, by simp, ?_, rfl⟩
  show ((s.trace ++ [Event.unmount info.mountPath mntDetach])
      ++ [Event.deactivate (infoName s info)])
      ++ [Event.removeDevice (infoName s info)]
    = s.trace ++ [Event.unmount info.mountPath mntDetach,
                  Event.deactivate (infoName s info),
                  Event.removeDevice (infoName s info)]
  simp

/-- `UnmountDevice` on an unmounted device fails with the not-mounted
error. -/
theorem UnmountDevice_zero (env : Env) (hash : String) (info : DevInfo)
    (s : DeviceSet) (hdev : s.Devices hash = some info) (hc : info.mountCount = 0) :
    (UnmountDevice env hash s).1 = .error (.notMounted hash) := by
  unfold UnmountDevice lookupDevice
  dsimp only
  simp only [hdev]
  rw [if_pos hc]

/-- `K + 1` iterated unmounts from count `K + 1`: the first `K` only
decrement, the last performs the kernel unmount and deactivation. -/
theorem iterUnmount_run (env : Env) (hash : String) :
    ∀ (K : Nat) (s : DeviceSet) (info : DevInfo),
      s.Devices hash = some info → info.mountCount = K + 1 →
      env.boolRes s.step = true → env.getInfoRes (s.step + 1) = some true →
      env.boolRes (s.step + 2) = true →
      (iterUnmount env hash (K + 1) s).1 = .ok () ∧
      (iterUnmount env hash (K + 1) s).2.Devices hash
        = some { info with mountCount := 0, mountPath := "" } ∧
      (iterUnmount env hash (K + 1) s).2.trace
        = s.trace ++ [Event.unmount info.mountPath mntDetach,
                      Event.deactivate (infoName s info),
                      Event.removeDevice (infoName s info)] ∧
      (iterUnmount env hash (K + 1) s).2.step = s.step + 3
  | 0, s, info, hdev, hc, hb1, hgi, hb2 => by
      have hl := UnmountDevice_last env hash info s hdev (by omega) hb1 hgi hb2
      simp only [iterUnmount]
      rw [hl.1]
      dsimp only
      refine ⟨rfl, ?_, hl.2.2.1, hl.2.2.2⟩
      rw [hl.2.1, hc]
  | K + 1, s, info, hdev, hc, hb1, hgi, hb2 => by
      have hd := UnmountDevice_dec env hash info s hdev (by omega)
      simp only [iterUnmount]
      rw [hd]
      dsimp only
      have ih := iterUnmount_run env hash K
        (setDevice s hash { info with mountCount := info.mountCount - 1 })
        { info with mountCount := info.mountCount - 1 }
        (setDevice_Devices_self _ _ _)
        (by show info.mountCount - 1 = K + 1; omega)
        hb1 hgi hb2
      exact ⟨ih.1, ih.2.1, ih.2.2.1, ih.2.2.2⟩

/-- The cold `MountDevice` (count 0, active device, ext4 probe, first
kernel mount accepted): one kernel mount, count set to 1, path
recorded. -/
theorem MountDevice_cold (env : Env) (hash p lbl : String) (info : DevInfo)
    (s : DeviceSet) (hdev : s.Devices hash = some info) (hc : info.mountCount = 0)
    (hgi : env.getInfoRes s.step = some true)
    (hpr : env.probeFs (s.step + 1) = some "ext4")
    (hm : env.mountRes (s.step + 2) = MountRes.ok) :
    MountDevice env hash p lbl s
      = (.ok (), setDevice
          { s with
            trace := s.trace ++ [Event.mount (devNameOf s info) p "ext4"
              (joinMountOptions "discard"
                (joinMountOptions (joinMountOptions "" s.mountOptions)
                  (env.formatLabel "" lbl))) msMgcVal],
            step := s.step + 3 }
          hash { info with mountCount := 1, mountPath := p }) := by
  unfold MountDevice lookupDevice activateDeviceIfNeeded sysMount
  dsimp only
  simp only [hdev]
  rw [if_neg (show ¬(0:Nat) < info.mountCount by omega)]
  simp only [hgi]
  simp only [tick]
  simp only [hpr]
  rw [if_neg (show ¬("ext4" : String) = "xfs" by decide)]
  have hm2 : env.mountRes (s.step + 1 + 1) = MountRes.ok := by
    rw [show s.step + 1 + 1 = s.step + 2 by omega]; exact hm
  simp only [hm2]
  simp only [emit, tick]
  rfl

/-- `iterMount_warm` restated with the mount path as a parameter. -/
theorem iterMount_warm_path (env : Env) (hash p lbl : String) (T : DeviceSet)
    (i : DevInfo) (K : Nat) (hdev : T.Devices hash = some i)
    (hpos : 0 < i.mountCount) (hpath : i.mountPath = p) :
    iterMount env hash p lbl K T
      = (.ok (), setDevice T hash { i with mountCount := i.mountCount + K }) := by
  have h := iterMount_warm env hash lbl K T i hdev hpos
  nth_rewrite 1 [hpath] at h
  exact h

/-- `K + 1` mounts from an unmounted device: one kernel mount, count
`K + 1`, path recorded. -/
theorem iterMount_all (env : Env) (hash p lbl : String) (info : DevInfo)
    (s : DeviceSet) (K : Nat)
    (hdev : s.Devices hash = some info) (hc : info.mountCount = 0)
    (hgi : env.getInfoRes s.step = some true)
    (hpr : env.probeFs (s.step + 1) = some "ext4")
    (hm : env.mountRes (s.step + 2) = MountRes.ok) :
    iterMount env hash p lbl (K + 1) s
      = (.ok (), setDevice
          { s with
            trace := s.trace ++ [Event.mount (devNameOf s info) p "ext4"
              (joinMountOptions "discard"
                (joinMountOptions (joinMountOptions "" s.mountOptions)
                  (env.formatLabel "" lbl))) msMgcVal],
            step := s.step + 3 }
          hash { info with mountCount := 1 + K, mountPath := p }) := by
  simp only [iterMount]
  rw [MountDevice_cold env hash p lbl info s hdev hc hgi hpr hm]
  dsimp only
  rw [iterMount_warm_path env hash p lbl _ { info with mountCount := 1, mountPath := p } K
    (setDevice_Devices_self _ _ _) (by show 0 < 1; omega) rfl]
  rw [setDevice_collapse]

/-- C5 — the mount refcount protocol: from an unmounted registered
device, `N ≥ 1` matched `MountDevice`/`UnmountDevice` pairs at path
`p` succeed; the registry count peaks at `N` with path `p`; the net
count is `0` and the path is cleared; over the whole exchange exactly
one kernel mount, exactly one kernel unmount (with `MNT_DETACH` at
`p`) and exactly one deactivation occur — so the mounts after the
first and the unmounts before the last touch only the counter; and one
more `UnmountDevice` fails with the not-mounted error. -/
theorem c5_mount_refcount (env : Env) (hash p lbl : String) (info : DevInfo)
    (s : DeviceSet) (N : Nat)
    (hdev : s.Devices hash = some info)
    (hcount : info.mountCount = 0)
    (hN : 1 ≤ N)
    (hgi : env.getInfoRes s.step = some true)
    (hprobe : env.probeFs (s.step + 1) = some "ext4")
    (hmnt : env.mountRes (s.step + 2) = MountRes.ok)
    (hb1 : env.boolRes (s.step + 3) = true)
    (hgi2 : env.getInfoRes (s.step + 4) = some true)
    (hb2 : env.boolRes (s.step + 5) = true) :
    (iterMount env hash p lbl N s).1 = .ok () ∧
    (∃ i, (iterMount env hash p lbl N s).2.Devices hash = some i ∧
      i.mountCount = N ∧ i.mountPath = p) ∧
    (iterUnmount env hash N (iterMount env hash p lbl N s).2).1 = .ok () ∧
    (iterUnmount env hash N (iterMount env hash p lbl N s).2).2.Devices hash
      = some { info with mountCount := 0, mountPath := "" } ∧
    (∃ tail, (iterUnmount env hash N (iterMount env hash p lbl N s).2).2.trace
        = s.trace ++ tail ∧
      countMount tail = 1 ∧ countUnmount tail = 1 ∧ countDeactivate tail = 1 ∧
      Event.unmount p mntDetach ∈ tail) ∧
    (UnmountDevice env hash
        (iterUnmount env hash N (iterMount env hash p lbl N s).2).2).1
      = .error (.notMounted hash) := by
  obtain ⟨K, rfl⟩ : ∃ K, N = K + 1 := ⟨N - 1, by omega⟩
  have hms := iterMount_all env hash p lbl info s K hdev hcount hgi hprobe hmnt
  have hrun := iterUnmount_run env hash K
    (setDevice
      { s with
        trace := s.trace ++ [Event.mount (devNameOf s info) p "ext4"
          (joinMountOptions "discard"
            (joinMountOptions (joinMountOptions "" s.mountOptions)
              (env.formatLabel "" lbl))) msMgcVal],
        step := s.step + 3 }
      hash { info with mountCount := 1 + K, mountPath := p })
    { info with mountCount := 1 + K, mountPath := p }
    (setDevice_Devices_self _ _ _)
    (by show 1 + K = K + 1; omega)
    hb1 hgi2 hb2
  refine ⟨?_, ?_, ?_, ?_, ?_, ?_⟩
  · rw [hms]
  · refine ⟨{ info with mountCount := 1 + K, mountPath := p }, ?_, ?_, rfl⟩
    · rw [hms]
      exact setDevice_Devices_self _ _ _
    · show 1 + K = K + 1
      omega
  · rw [hms]
    exact hrun.1
  · rw [hms]
    exact hrun.2.1
  · refine ⟨[Event.mount (devNameOf s info) p "ext4"
        (joinMountOptions "discard"
          (joinMountOptions (joinMountOptions "" s.mountOptions)
            (env.formatLabel "" lbl))) msMgcVal,
      Event.unmount p mntDetach,
      Event.deactivate (infoName s info),
      Event.removeDevice (infoName s info)], ?_, by rfl, by rfl, by rfl, by simp⟩
    rw [hms]
    dsimp only
    rw [hrun.2.2.1]
    show (s.trace ++ [Event.mount (devNameOf s info) p "ext4"
        (joinMountOptions "discard"
          (joinMountOptions (joinMountOptions "" s.mountOptions)
            (env.formatLabel "" lbl))) msMgcVal])
      ++ [Event.unmount p mntDetach, Event.deactivate (infoName s info),
          Event.removeDevice (infoName s info)]
      = _
    simp
  · rw [hms]
    exact UnmountDevice_zero env hash
      { info with mountCount := 0, mountPath := "" } _ hrun.2.1 rfl

/-- C5 witness: one mount/unmount pair on the registered unmounted
device `A` — the pair succeeds, the record returns to count 0 with the
path cleared, and a further unmount fails as not mounted. -/
theorem c5_mount_refcount_witness :
    infoZ.mountCount = 0 ∧ 1 ≤ 1 ∧
    (iterUnmount env0 "A" 1 (iterMount env0 "A" "/mnt/x" "" 1 sZ).2).2.Devices "A"
      = some { infoZ with mountCount := 0, mountPath := "" } ∧
    (UnmountDevice env0 "A"
        (iterUnmount env0 "A" 1 (iterMount env0 "A" "/mnt/x" "" 1 sZ).2).2).1
      = .error (.notMounted "A") := by
  have h := c5_mount_refcount env0 "A" "/mnt/x" "" infoZ sZ 1 rfl rfl (by omega)
    rfl rfl rfl rfl rfl rfl
  exact ⟨rfl, by omega, h.2.2.2.1, h.2.2.2.2.2⟩

/-- C8 witness: a raw data device with no `dm.blkdiscard` option
defaults `doBlkDiscard` off; adding `dm.blkdiscard=true` keeps it on
despite the raw device. -/
theorem c8_blkdiscard_default_witness :
    newDeviceSetConfig env0 optsD = some cfgD ∧
    (cfgD.doBlkDiscard = true ↔ (cfgD.dataDevice = "" ∧ cfgD.thinPoolDevice = "")) ∧
    cfgE.doBlkDiscard = true :=
  ⟨by decide,
   (c8_blkdiscard_default env0 optsD [] [] cfgD).1 (by decide) (by decide),
   (c8_blkdiscard_default env0 [] optsD [] cfgE).2 ("dm.blkdiscard", "true") true
     (by decide) (by decide) (by decide) (by decide)⟩

end Devmapper
